import Mathlib

/-!
# Proof-of-stake kernel validation (`src/kernel.cpp`)

A shallow embedding of `CheckStakeKernelHash` and `CheckProofOfStake`.

* 32-bit unsigned values (`nBits`, block time, offsets, `nTimeTx`) are natural
  numbers; theorems that depend on the width assume `< 2 ^ 32`.
* `int64_t` values are integers; every `int64_t` operation is followed by
  `wrapInt64` (two's complement).
* `arith_uint256` values are natural numbers, every operation reduced
  modulo `2 ^ 256`.
* `uint256` (an opaque 256-bit blob) is `Fin (2 ^ 256)`, read as the unsigned
  integer `UintToArith256` gives.
* Collaborators (`Hash`, `GetTransaction`, `CScriptCheck`, `FindTx`) and the
  constants that live in other files are fields of `Env`.
* An out-of-range `std::vector::operator[]` is undefined behaviour; the
  embedding of `CheckProofOfStake` returns `none` there.
-/

namespace Kernel

/-! ## Data model -/

/-- A 256-bit blob (`uint256`), identified with the unsigned integer that
`UintToArith256` reads from it. -/
abbrev uint256 : Type := Fin (2 ^ 256)

/-- The function `UintToArith256`: the blob read as an unsigned 256-bit integer. -/
def UintToArith256 (h : uint256) : Nat := h.val

/-- The type `COutPoint`: the transaction hash and the output index `n` (`uint32_t`). -/
structure COutPoint where
  hash : uint256
  n : Nat
deriving DecidableEq

/-- The type `CTxIn`: only the fields the kernel reads or hands to the script check. -/
structure CTxIn where
  prevout : COutPoint
  scriptSig : List Nat
deriving DecidableEq

/-- The type `CTxOut`: `nValue` is a `CAmount` (`int64_t`). -/
structure CTxOut where
  nValue : Int
  scriptPubKey : List Nat
deriving DecidableEq

/-- The type `CTransaction`: the input and output vectors. -/
structure CTransaction where
  vin : List CTxIn
  vout : List CTxOut
deriving DecidableEq

/-- The type `CBlockHeader`: only `nTime` (`uint32_t`) is read by the kernel. -/
structure CBlockHeader where
  nTime : Nat
deriving DecidableEq

/-- The method `CBlockHeader::GetBlockTime`: `(int64_t)nTime`. -/
def CBlockHeader.GetBlockTime (b : CBlockHeader) : Int := (b.nTime : Int)

/-- The type `CDiskTxPos`: only `nTxOffset` (`unsigned int`) is read. -/
structure CDiskTxPos where
  nTxOffset : Nat
deriving DecidableEq

/-- The type `CValidationState`: passed by reference to `CheckProofOfStake`, which never
writes to it (every `state.DoS` call is commented out in the source). -/
structure CValidationState where
  nDoS : Nat
  strRejectReason : String
deriving DecidableEq

/-- Everything `kernel.cpp` reads from other files.

* `nStakeMinAge`, `nStakeMaxAge`: `Params().GetConsensus()` fields; `std::min`
  at line 52 forces `nStakeMaxAge` to be `int64_t`, and `nStakeMinAge` is
  declared alongside it.
* `COIN`: the `CAmount` constant of `amount.h` (the spec's `coinUnit`), a
  positive `int64_t`.
* `sizeofCBlockHeader`: `sizeof(CBlockHeader)`.
* `Hash`: the network hash of a byte string.
* `GetTransaction`, `CScriptCheck`, `FindTx`: the chain and script
  collaborators; a failed lookup is `none`. -/
structure Env where
  nStakeMinAge : Int
  nStakeMaxAge : Int
  COIN : Nat
  COIN_pos : 0 < COIN
  COIN_lt : COIN < 2 ^ 63
  sizeofCBlockHeader : Nat
  Hash : List Nat → uint256
  GetTransaction : uint256 → Option CTransaction
  CScriptCheck : CTxOut → CTransaction → Nat → Nat → Bool → Bool
  FindTx : uint256 → Option (CDiskTxPos × CBlockHeader × CTransaction)

/-! ## Machine arithmetic -/

/-- The value an `int64_t` holds after an operation whose exact result is `x`
(two's complement wrap-around). -/
def wrapInt64 (x : Int) : Int :=
  (x + 9223372036854775808) % 18446744073709551616 - 9223372036854775808

/-- Conversion of an `int64_t` to `uint64_t`. -/
def toUInt64 (x : Int) : Nat := (x % 18446744073709551616).toNat

/-- Conversion of an `int64_t` to `uint32_t`. -/
def toUInt32 (x : Int) : Nat := (x % 4294967296).toNat

/-- Modelled from the spec: `arith_uint256` (`arith_uint256.h` is not among the
source files), the "fixed-width big-integer abstraction" of the spec, 256 bits
wide. Construction from a `uint64_t`. -/
def arith_uint256.ofUInt64 (b : Nat) : Nat := b % 2 ^ 64

/-- Modelled from the spec: `arith_uint256` product, reduced to 256 bits. -/
def arith_uint256.mul (a b : Nat) : Nat := (a * b) % 2 ^ 256

/-- Modelled from the spec: `arith_uint256` times a built-in integer. The
library offers `operator*(base_uint, uint32_t)` next to
`operator*(base_uint, base_uint)`; for an `int64_t` right operand the
integral conversion to `uint32_t` is the better match, so the operand is
first converted to `uint32_t`. -/
def arith_uint256.mulInt (a : Nat) (b : Int) : Nat := (a * toUInt32 b) % 2 ^ 256

/-- Modelled from the spec: `arith_uint256` quotient by a non-zero divisor
(the divisors in `kernel.cpp` are `COIN` and `24 * 60 * 60`). -/
def arith_uint256.div (a b : Nat) : Nat := a / b

/-- The three results of `arith_uint256::SetCompact`: the decoded value and the
two flags it can report through its optional out-parameters. -/
structure CompactResult where
  value : Nat
  fNegative : Bool
  fOverflow : Bool
deriving DecidableEq

/-- Modelled from the spec: `arith_uint256::SetCompact`, "the standard
compact-difficulty decoding: an exponent byte and a 3-byte mantissa
reconstruct the full integer by left-shifting the mantissa by
`8 × (exponent − 3)` (or right-shifting ...)". The top mantissa bit is the
sign; the value is the 23-bit magnitude shifted, kept to 256 bits. The flags
are what the decoder reports as negative / overflowing. -/
def SetCompact (nCompact : Nat) : CompactResult :=
  let nSize := nCompact / 2 ^ 24
  let nWord0 := nCompact % 2 ^ 23
  let nWord := if nSize ≤ 3 then nWord0 / 2 ^ (8 * (3 - nSize)) else nWord0
  let value := if nSize ≤ 3 then nWord else (nWord * 2 ^ (8 * (nSize - 3))) % 2 ^ 256
  { value := value
    fNegative := decide (nWord ≠ 0) && decide (nCompact / 2 ^ 23 % 2 = 1)
    fOverflow := decide (nWord ≠ 0) &&
      (decide (nSize > 34) || (decide (nWord > 255) && decide (nSize > 33)) ||
        (decide (nWord > 65535) && decide (nSize > 32))) }

/-- Modelled from the spec: `CDataStream::operator<<` for a 32-bit unsigned
field ("fixed-width encoding"): four bytes, least significant first. -/
def ser_uint32 (x : Nat) : List Nat :=
  [x % 256, x / 256 % 256, x / 65536 % 256, x / 16777216 % 256]

/-! ## `CheckStakeKernelHash` -/

/-- Line 43: `uint32_t nTimeBlockFrom = blockFrom.GetBlockTime();`. -/
def nTimeBlockFrom (blockFrom : CBlockHeader) : Nat := toUInt32 blockFrom.GetBlockTime

/-- Line 44: `nTimeBlockFrom + nStakeMinAge > nTimeTx`, evaluated in `int64_t`. -/
def minAgeViolation (E : Env) (blockFrom : CBlockHeader) (nTimeTx : Nat) : Bool :=
  decide (wrapInt64 ((nTimeBlockFrom blockFrom : Int) + E.nStakeMinAge) > (nTimeTx : Int))

/-- Lines 47-48: the target; the flags of `SetCompact` are not requested. -/
def bnTargetPerCoinDay (nBits : Nat) : Nat := (SetCompact nBits).value

/-- Line 52: `min((int64_t)nTimeTx - nTimeBlockFrom, nStakeMaxAge) - nStakeMinAge`. -/
def nTimeWeight (E : Env) (blockFrom : CBlockHeader) (nTimeTx : Nat) : Int :=
  wrapInt64 (min (wrapInt64 ((nTimeTx : Int) - (nTimeBlockFrom blockFrom : Int))) E.nStakeMaxAge
    - E.nStakeMinAge)

/-- Line 53: `arith_uint256(nValue) * nTimeWeight / COIN / (24 * 60 * 60)`. -/
def bnCoinDayWeight (E : Env) (txOutPrev : CTxOut) (blockFrom : CBlockHeader)
    (nTimeTx : Nat) : Nat :=
  arith_uint256.div
    (arith_uint256.div
      (arith_uint256.mulInt (arith_uint256.ofUInt64 (toUInt64 txOutPrev.nValue))
        (nTimeWeight E blockFrom nTimeTx))
      (arith_uint256.ofUInt64 (toUInt64 (E.COIN : Int))))
    (arith_uint256.ofUInt64 (toUInt64 (24 * 60 * 60)))

/-- Line 53 as a function of the output value and of the weighted seconds
alone: `arith_uint256(nValue) * nTimeWeight / COIN / (24 * 60 * 60)`;
`bnCoinDayWeight` is this function at `txOutPrev.nValue` and at the weighted
time of line 52. -/
def coinDayWeight (E : Env) (nValue : Int) (weightedSeconds : Int) : Nat :=
  arith_uint256.div
    (arith_uint256.div
      (arith_uint256.mulInt (arith_uint256.ofUInt64 (toUInt64 nValue)) weightedSeconds)
      (arith_uint256.ofUInt64 (toUInt64 (E.COIN : Int))))
    (arith_uint256.ofUInt64 (toUInt64 (24 * 60 * 60)))

/-- Line 57: the bytes written to the stream. -/
def kernelStream (nBits : Nat) (blockFrom : CBlockHeader) (nTxPrevOffset : Nat)
    (prevout : COutPoint) (nTimeTx : Nat) : List Nat :=
  ser_uint32 nBits ++ ser_uint32 (nTimeBlockFrom blockFrom) ++ ser_uint32 nTxPrevOffset ++
    ser_uint32 (nTimeBlockFrom blockFrom) ++ ser_uint32 prevout.n ++ ser_uint32 nTimeTx

/-- The function `CheckStakeKernelHash` (lines 41-66). The result is the returned `bool`
and the content of the reference parameter `hashProofOfStake` after the call. -/
def CheckStakeKernelHash (E : Env) (nBits : Nat) (blockFrom : CBlockHeader)
    (nTxPrevOffset : Nat) (txOutPrev : CTxOut) (prevout : COutPoint) (nTimeTx : Nat)
    (hashProofOfStake : uint256) : Bool × uint256 :=
  if minAgeViolation E blockFrom nTimeTx then
    (false, hashProofOfStake)
  else
    let hashNew := E.Hash (kernelStream nBits blockFrom nTxPrevOffset prevout nTimeTx)
    if UintToArith256 hashNew >
        arith_uint256.mul (bnCoinDayWeight E txOutPrev blockFrom nTimeTx)
          (bnTargetPerCoinDay nBits) then
      (false, hashNew)
    else
      (true, hashNew)

/-! ## `CheckProofOfStake` -/

/-- The function `CheckProofOfStake` (lines 68-98). `none` is an out-of-range
`operator[]` on `tx->vin`, `txTmp->vout` or `txPrev->vout`; otherwise the
result is the returned `bool`, the content of `hashProofOfStake` and the
validation state after the call. -/
def CheckProofOfStake (E : Env) (state : CValidationState) (tx : CTransaction) (nBits : Nat)
    (hashProofOfStake : uint256) (nBlockTime : Nat) :
    Option (Bool × uint256 × CValidationState) :=
  match tx.vin[0]? with
  | none => none
  | some txin =>
    match E.GetTransaction txin.prevout.hash with
    | none => some (false, hashProofOfStake, state)
    | some txTmp =>
      match txTmp.vout[txin.prevout.n]? with
      | none => none
      | some txOutTmp =>
        if !E.CScriptCheck txOutTmp tx 0 0 true then
          some (false, hashProofOfStake, state)
        else
          match E.FindTx txin.prevout.hash with
          | none => some (false, hashProofOfStake, state)
          | some (postx, header, txPrev) =>
            match txPrev.vout[txin.prevout.n]? with
            | none => none
            | some txOutPrev =>
              let r := CheckStakeKernelHash E nBits header
                ((postx.nTxOffset + E.sizeofCBlockHeader) % 2 ^ 32) txOutPrev txin.prevout
                nBlockTime hashProofOfStake
              some (r.1, r.2, state)

/-! ## The discriminated verdict of the spec -/

/-- A stand-in for the network hash in worked inputs: the bytes read as a
base-256 number after a leading 1, kept to 256 bits. -/
def exampleHash (bs : List Nat) : uint256 :=
  Fin.ofNat' (2 ^ 256) (bs.foldl (fun a b => a * 256 + b) 1)

/-- The previous transaction of the worked inputs: one output of
`2 ^ 24` coins. -/
def exampleTxPrev : CTransaction :=
  { vin := [], vout := [{ nValue := 16777216 * 100000000, scriptPubKey := [118] }] }

/-- A worked environment: three and thirty days as the stake ages, a coin of
`10 ^ 8` units, an index that knows the previous transaction in a block of
time 1000 at offset 1, and a script check that succeeds. -/
def exampleEnv : Env :=
  { nStakeMinAge := 259200
    nStakeMaxAge := 2592000
    COIN := 100000000
    COIN_pos := by decide
    COIN_lt := by decide
    sizeofCBlockHeader := 80
    Hash := exampleHash
    GetTransaction := fun _ => some exampleTxPrev
    CScriptCheck := fun _ _ _ _ _ => true
    FindTx := fun _ => some ({ nTxOffset := 1 }, { nTime := 1000 }, exampleTxPrev) }

/-- A coinstake candidate spending output 0 of the previous transaction. -/
def exampleTx : CTransaction :=
  { vin := [{ prevout := { hash := 7, n := 0 }, scriptSig := [1] }], vout := [] }

/-- The worked environment with an index that does not know the previous
transaction. -/
def exampleEnvNotFound : Env := { exampleEnv with GetTransaction := fun _ => none }

/-- The worked environment with a script check that fails. -/
def exampleEnvBadScript : Env := { exampleEnv with CScriptCheck := fun _ _ _ _ _ => false }

/-- A candidate with an empty input vector. -/
def exampleTxNoInput : CTransaction := { vin := [], vout := [] }

/-- A candidate whose input 0 names output 1 of the previous transaction,
which has a single output. -/
def exampleTxOutOfRange : CTransaction :=
  { vin := [{ prevout := { hash := 7, n := 1 }, scriptSig := [1] }], vout := [] }

/-- The worked environment with a hash function that answers
`0x7fffff * 2 ^ 232` on every input. -/
def exampleEnvBoundary : Env :=
  { exampleEnv with Hash := fun _ => Fin.ofNat' (2 ^ 256) (8388607 * 2 ^ 232) }

/-- The worked environment with a maximum stake age (one day) below the
minimum stake age (three days). -/
def exampleEnvShortMaxAge : Env := { exampleEnv with nStakeMaxAge := 86400 }

theorem wrapInt64_of_range {x : Int} (h0 : -9223372036854775808 ≤ x)
    (h1 : x ≤ 9223372036854775807) : wrapInt64 x = x := by
  unfold wrapInt64
  omega

theorem toUInt32_natCast {n : Nat} (h : n < 2 ^ 32) : toUInt32 (n : Int) = n := by
  unfold toUInt32
  omega

theorem toUInt64_natCast {n : Nat} (h : n < 2 ^ 64) : toUInt64 (n : Int) = n := by
  unfold toUInt64
  omega

theorem nTimeBlockFrom_eq {blockFrom : CBlockHeader} (h : blockFrom.nTime < 2 ^ 32) :
    nTimeBlockFrom blockFrom = blockFrom.nTime := by
  unfold nTimeBlockFrom CBlockHeader.GetBlockTime
  exact toUInt32_natCast h

/-- Without `int64_t` overflow the min-age test of line 44 is the exact
comparison `nTime + nStakeMinAge > nTimeTx`. -/
theorem minAgeViolation_iff (E : Env) (blockFrom : CBlockHeader) (nTimeTx : Nat)
    (hb : blockFrom.nTime < 2 ^ 32)
    (hmin : -9223372036854775808 ≤ E.nStakeMinAge)
    (hsum : (blockFrom.nTime : Int) + E.nStakeMinAge ≤ 9223372036854775807) :
    minAgeViolation E blockFrom nTimeTx = true ↔
      (blockFrom.nTime : Int) + E.nStakeMinAge > (nTimeTx : Int) := by
  unfold minAgeViolation
  rw [nTimeBlockFrom_eq hb, wrapInt64_of_range (by omega) hsum]
  simp

/-- When the min-age test passes with parameters `0 ≤ nStakeMinAge ≤ nStakeMaxAge`,
no `int64_t` operation of line 52 wraps. -/
theorem nTimeWeight_eq (E : Env) (blockFrom : CBlockHeader) (nTimeTx : Nat)
    (hb : blockFrom.nTime < 2 ^ 32) (ht : nTimeTx < 2 ^ 32)
    (h0 : 0 ≤ E.nStakeMinAge) (h1 : E.nStakeMinAge ≤ E.nStakeMaxAge)
    (hsum : (blockFrom.nTime : Int) + E.nStakeMinAge ≤ 9223372036854775807)
    (hpass : minAgeViolation E blockFrom nTimeTx = false) :
    nTimeWeight E blockFrom nTimeTx =
      min ((nTimeTx : Int) - (blockFrom.nTime : Int)) E.nStakeMaxAge - E.nStakeMinAge := by
  have hv := minAgeViolation_iff E blockFrom nTimeTx hb (by omega) hsum
  rw [hpass] at hv
  have hle : (blockFrom.nTime : Int) + E.nStakeMinAge ≤ (nTimeTx : Int) := by
    by_contra hc
    exact absurd (hv.mpr (by omega)) (by simp)
  unfold nTimeWeight
  rw [nTimeBlockFrom_eq hb]
  have hb' : (blockFrom.nTime : Int) < 4294967296 := by exact_mod_cast hb
  have ht' : (nTimeTx : Int) < 4294967296 := by exact_mod_cast ht
  rw [wrapInt64_of_range (x := (nTimeTx : Int) - (blockFrom.nTime : Int)) (by omega) (by omega)]
  apply wrapInt64_of_range <;> omega

/-- With a non-negative 64-bit value and a weighted time in `[0, 2 ^ 32)` no
conversion or 256-bit operation of line 53 loses anything. -/
theorem bnCoinDayWeight_eq (E : Env) (txOutPrev : CTxOut) (blockFrom : CBlockHeader)
    (nTimeTx : Nat) (hv0 : 0 ≤ txOutPrev.nValue)
    (hv1 : txOutPrev.nValue ≤ 9223372036854775807)
    (hw0 : 0 ≤ nTimeWeight E blockFrom nTimeTx)
    (hw1 : nTimeWeight E blockFrom nTimeTx < 4294967296) :
    bnCoinDayWeight E txOutPrev blockFrom nTimeTx =
      txOutPrev.nValue.toNat * (nTimeWeight E blockFrom nTimeTx).toNat / E.COIN / 86400 := by
  unfold bnCoinDayWeight arith_uint256.div arith_uint256.mulInt arith_uint256.ofUInt64
  have hcoin := E.COIN_lt
  have e1 : toUInt64 txOutPrev.nValue = txOutPrev.nValue.toNat := by
    unfold toUInt64; omega
  have e2 : toUInt32 (nTimeWeight E blockFrom nTimeTx) =
      (nTimeWeight E blockFrom nTimeTx).toNat := by
    unfold toUInt32; omega
  have e3 : toUInt64 (E.COIN : Int) = E.COIN := toUInt64_natCast (by omega)
  have e4 : toUInt64 (24 * 60 * 60) = 86400 := by decide
  rw [e1, e2, e3, e4]
  have b1 : txOutPrev.nValue.toNat < 2 ^ 64 := by omega
  have b2 : (nTimeWeight E blockFrom nTimeTx).toNat < 2 ^ 32 := by omega
  have b3 : txOutPrev.nValue.toNat % 2 ^ 64 * (nTimeWeight E blockFrom nTimeTx).toNat
      < 2 ^ 256 := by
    rw [Nat.mod_eq_of_lt b1]
    calc txOutPrev.nValue.toNat * (nTimeWeight E blockFrom nTimeTx).toNat
        < 2 ^ 64 * 2 ^ 32 := Nat.mul_lt_mul'' b1 b2
      _ < 2 ^ 256 := by norm_num
  rw [Nat.mod_eq_of_lt b3, Nat.mod_eq_of_lt b1, Nat.mod_eq_of_lt (by omega : E.COIN < 2 ^ 64)]
  norm_num

/-- The verdict and the proof hash of `CheckStakeKernelHash` once the min-age
test has passed: the hash is the network hash of the stream of line 57 and the
verdict is the 256-bit comparison of lines 62-65. -/
theorem CheckStakeKernelHash_of_pass (E : Env) (nBits : Nat) (blockFrom : CBlockHeader)
    (nTxPrevOffset : Nat) (txOutPrev : CTxOut) (prevout : COutPoint) (nTimeTx : Nat)
    (hashProofOfStake : uint256) (hpass : minAgeViolation E blockFrom nTimeTx = false) :
    CheckStakeKernelHash E nBits blockFrom nTxPrevOffset txOutPrev prevout nTimeTx
        hashProofOfStake =
      (decide (UintToArith256 (E.Hash (kernelStream nBits blockFrom nTxPrevOffset prevout nTimeTx))
          ≤ arith_uint256.mul (bnCoinDayWeight E txOutPrev blockFrom nTimeTx)
              (bnTargetPerCoinDay nBits)),
        E.Hash (kernelStream nBits blockFrom nTxPrevOffset prevout nTimeTx)) := by
  unfold CheckStakeKernelHash
  rw [hpass]
  by_cases h : UintToArith256 (E.Hash (kernelStream nBits blockFrom nTxPrevOffset prevout nTimeTx))
      ≤ arith_uint256.mul (bnCoinDayWeight E txOutPrev blockFrom nTimeTx)
          (bnTargetPerCoinDay nBits)
  · simp [h, Nat.not_lt.mpr h]
  · simp [h, Nat.lt_of_not_le h]

/-- A failed min-age test returns `false` and leaves the proof hash alone. -/
theorem CheckStakeKernelHash_of_violation (E : Env) (nBits : Nat) (blockFrom : CBlockHeader)
    (nTxPrevOffset : Nat) (txOutPrev : CTxOut) (prevout : COutPoint) (nTimeTx : Nat)
    (hashProofOfStake : uint256) (hviol : minAgeViolation E blockFrom nTimeTx = true) :
    CheckStakeKernelHash E nBits blockFrom nTxPrevOffset txOutPrev prevout nTimeTx
        hashProofOfStake = (false, hashProofOfStake) := by
  unfold CheckStakeKernelHash
  simp [hviol]

/-! ## The paths through `CheckProofOfStake` -/

theorem CheckProofOfStake_of_no_input (E : Env) (state : CValidationState) (tx : CTransaction)
    (nBits : Nat) (hashProofOfStake : uint256) (nBlockTime : Nat) (hvin : tx.vin[0]? = none) :
    CheckProofOfStake E state tx nBits hashProofOfStake nBlockTime = none := by
  simp only [CheckProofOfStake, hvin]

theorem CheckProofOfStake_of_not_found (E : Env) (state : CValidationState) (tx : CTransaction)
    (nBits : Nat) (hashProofOfStake : uint256) (nBlockTime : Nat) (txin : CTxIn)
    (hvin : tx.vin[0]? = some txin) (hG : E.GetTransaction txin.prevout.hash = none) :
    CheckProofOfStake E state tx nBits hashProofOfStake nBlockTime =
      some (false, hashProofOfStake, state) := by
  simp only [CheckProofOfStake, hvin, hG]

theorem CheckProofOfStake_of_tmp_range (E : Env) (state : CValidationState) (tx : CTransaction)
    (nBits : Nat) (hashProofOfStake : uint256) (nBlockTime : Nat) (txin : CTxIn)
    (txTmp : CTransaction) (hvin : tx.vin[0]? = some txin)
    (hG : E.GetTransaction txin.prevout.hash = some txTmp)
    (hO : txTmp.vout[txin.prevout.n]? = none) :
    CheckProofOfStake E state tx nBits hashProofOfStake nBlockTime = none := by
  simp only [CheckProofOfStake, hvin, hG, hO]

theorem CheckProofOfStake_of_bad_script (E : Env) (state : CValidationState)
    (tx : CTransaction) (nBits : Nat) (hashProofOfStake : uint256) (nBlockTime : Nat)
    (txin : CTxIn) (txTmp : CTransaction) (txOutTmp : CTxOut) (hvin : tx.vin[0]? = some txin)
    (hG : E.GetTransaction txin.prevout.hash = some txTmp)
    (hO : txTmp.vout[txin.prevout.n]? = some txOutTmp)
    (hS : E.CScriptCheck txOutTmp tx 0 0 true = false) :
    CheckProofOfStake E state tx nBits hashProofOfStake nBlockTime =
      some (false, hashProofOfStake, state) := by
  simp [CheckProofOfStake, hvin, hG, hO, hS]

theorem CheckProofOfStake_of_no_location (E : Env) (state : CValidationState)
    (tx : CTransaction) (nBits : Nat) (hashProofOfStake : uint256) (nBlockTime : Nat)
    (txin : CTxIn) (txTmp : CTransaction) (txOutTmp : CTxOut) (hvin : tx.vin[0]? = some txin)
    (hG : E.GetTransaction txin.prevout.hash = some txTmp)
    (hO : txTmp.vout[txin.prevout.n]? = some txOutTmp)
    (hS : E.CScriptCheck txOutTmp tx 0 0 true = true)
    (hF : E.FindTx txin.prevout.hash = none) :
    CheckProofOfStake E state tx nBits hashProofOfStake nBlockTime =
      some (false, hashProofOfStake, state) := by
  simp [CheckProofOfStake, hvin, hG, hO, hS, hF]

theorem CheckProofOfStake_of_prev_range (E : Env) (state : CValidationState)
    (tx : CTransaction) (nBits : Nat) (hashProofOfStake : uint256) (nBlockTime : Nat)
    (txin : CTxIn) (txTmp : CTransaction) (txOutTmp : CTxOut) (postx : CDiskTxPos)
    (header : CBlockHeader) (txPrev : CTransaction) (hvin : tx.vin[0]? = some txin)
    (hG : E.GetTransaction txin.prevout.hash = some txTmp)
    (hO : txTmp.vout[txin.prevout.n]? = some txOutTmp)
    (hS : E.CScriptCheck txOutTmp tx 0 0 true = true)
    (hF : E.FindTx txin.prevout.hash = some (postx, header, txPrev))
    (hP : txPrev.vout[txin.prevout.n]? = none) :
    CheckProofOfStake E state tx nBits hashProofOfStake nBlockTime = none := by
  simp [CheckProofOfStake, hvin, hG, hO, hS, hF, hP]

theorem CheckProofOfStake_of_kernel (E : Env) (state : CValidationState)
    (tx : CTransaction) (nBits : Nat) (hashProofOfStake : uint256) (nBlockTime : Nat)
    (txin : CTxIn) (txTmp : CTransaction) (txOutTmp : CTxOut) (postx : CDiskTxPos)
    (header : CBlockHeader) (txPrev : CTransaction) (txOutPrev : CTxOut)
    (hvin : tx.vin[0]? = some txin)
    (hG : E.GetTransaction txin.prevout.hash = some txTmp)
    (hO : txTmp.vout[txin.prevout.n]? = some txOutTmp)
    (hS : E.CScriptCheck txOutTmp tx 0 0 true = true)
    (hF : E.FindTx txin.prevout.hash = some (postx, header, txPrev))
    (hP : txPrev.vout[txin.prevout.n]? = some txOutPrev) :
    CheckProofOfStake E state tx nBits hashProofOfStake nBlockTime =
      some ((CheckStakeKernelHash E nBits header
          ((postx.nTxOffset + E.sizeofCBlockHeader) % 2 ^ 32) txOutPrev txin.prevout
          nBlockTime hashProofOfStake).1,
        (CheckStakeKernelHash E nBits header
          ((postx.nTxOffset + E.sizeofCBlockHeader) % 2 ^ 32) txOutPrev txin.prevout
          nBlockTime hashProofOfStake).2, state) := by
  simp only [CheckProofOfStake, hvin, hG, hO, hS, hF, hP]
  simp

/-- The inputs of the C1 counterexample under any hash function and any
collaborators: with stake ages 259200 and 2592000 and a coin of `10 ^ 8`
units, `2 ^ 24` coins aged one day past the minimum weigh `2 ^ 24`, the exact
product with the target of `0x207fffff` is at least `2 ^ 256` (so at least
every proof hash), and the stake is accepted only if the hash is zero. -/
theorem product_wraps_for_every_hash (E : Env) (hmin : E.nStakeMinAge = 259200)
    (hmax : E.nStakeMaxAge = 2592000) (hcoin : E.COIN = 100000000) (nTxPrevOffset : Nat)
    (prevout : COutPoint) (hashProofOfStake : uint256) :
    minAgeViolation E { nTime := 1000 } 346600 = false ∧
    2 ^ 256 ≤ bnCoinDayWeight E { nValue := 16777216 * 100000000, scriptPubKey := [] }
      { nTime := 1000 } 346600 * bnTargetPerCoinDay 545259519 ∧
    ((CheckStakeKernelHash E 545259519 { nTime := 1000 } nTxPrevOffset
        { nValue := 16777216 * 100000000, scriptPubKey := [] } prevout 346600
        hashProofOfStake).1 = true ↔
      UintToArith256 (E.Hash (kernelStream 545259519 { nTime := 1000 } nTxPrevOffset prevout
        346600)) = 0) := by
  have hpass : minAgeViolation E { nTime := 1000 } 346600 = false := by
    unfold minAgeViolation
    rw [hmin]
    decide
  have hw : bnCoinDayWeight E { nValue := 16777216 * 100000000, scriptPubKey := [] }
      { nTime := 1000 } 346600 = 16777216 := by
    unfold bnCoinDayWeight nTimeWeight
    rw [hmin, hmax, hcoin]
    decide
  have ht : bnTargetPerCoinDay 545259519 = 8388607 * 2 ^ 232 := by decide
  refine ⟨hpass, ?_, ?_⟩
  · rw [hw, ht]
    norm_num
  · rw [CheckStakeKernelHash_of_pass E 545259519 { nTime := 1000 } nTxPrevOffset _ prevout
      346600 hashProofOfStake hpass, hw, ht]
    have hz : arith_uint256.mul 16777216 (8388607 * 2 ^ 232) = 0 := by decide
    rw [hz]
    simp

/-! ## C1: acceptance law -/

/-- The acceptance law where line 62 does not overflow: for every input that
passes the min-age check and whose exact product weight × target fits in 256
bits, `CheckStakeKernelHash` returns true if and only if the proof hash, read
as an unsigned 256-bit integer, is at most weight × target; equality is
accepted. -/
theorem C1_accept_iff_le_product_of_fit (E : Env) (nBits : Nat) (blockFrom : CBlockHeader)
    (nTxPrevOffset : Nat) (txOutPrev : CTxOut) (prevout : COutPoint) (nTimeTx : Nat)
    (hashProofOfStake : uint256) (hpass : minAgeViolation E blockFrom nTimeTx = false)
    (hfit : bnCoinDayWeight E txOutPrev blockFrom nTimeTx * bnTargetPerCoinDay nBits
      < 2 ^ 256) :
    (CheckStakeKernelHash E nBits blockFrom nTxPrevOffset txOutPrev prevout nTimeTx
        hashProofOfStake).1 = true ↔
      UintToArith256 (CheckStakeKernelHash E nBits blockFrom nTxPrevOffset txOutPrev prevout
        nTimeTx hashProofOfStake).2 ≤
        bnCoinDayWeight E txOutPrev blockFrom nTimeTx * bnTargetPerCoinDay nBits := by
  rw [CheckStakeKernelHash_of_pass E nBits blockFrom nTxPrevOffset txOutPrev prevout nTimeTx
    hashProofOfStake hpass]
  unfold arith_uint256.mul
  rw [Nat.mod_eq_of_lt hfit]
  simp

/-- The acceptance law at a worked input: one coin aged one day past the
minimum under the target `0x207fffff`; the weight is 1 and the product fits in
256 bits. -/
theorem C1_accept_iff_le_product_of_fit_witness :
    minAgeViolation exampleEnv { nTime := 1000 } 346600 = false ∧
    bnCoinDayWeight exampleEnv { nValue := 100000000, scriptPubKey := [] } { nTime := 1000 }
      346600 * bnTargetPerCoinDay 545259519 < 2 ^ 256 ∧
    ((CheckStakeKernelHash exampleEnv 545259519 { nTime := 1000 } 81
        { nValue := 100000000, scriptPubKey := [] } { hash := 7, n := 0 } 346600 0).1 = true ↔
      UintToArith256 (CheckStakeKernelHash exampleEnv 545259519 { nTime := 1000 } 81
        { nValue := 100000000, scriptPubKey := [] } { hash := 7, n := 0 } 346600 0).2 ≤
        bnCoinDayWeight exampleEnv { nValue := 100000000, scriptPubKey := [] } { nTime := 1000 }
          346600 * bnTargetPerCoinDay 545259519) :=
  ⟨by decide, by decide,
    C1_accept_iff_le_product_of_fit exampleEnv 545259519 { nTime := 1000 } 81
      { nValue := 100000000, scriptPubKey := [] } { hash := 7, n := 0 } 346600 0
      (by decide) (by decide)⟩

/-- C1 (the code at the failing input): `2 ^ 24` coins aged one day past the
minimum under the target `0x207fffff` (decoded without overflow or sign). The
weight is `2 ^ 24`, the target `0x7fffff * 2 ^ 232`; the exact product
weight × target is at least the proof hash, yet the stake is rejected, because
the unchecked 256-bit product of line 62 is 0. On the same kernel fields, and so
with the same proof hash, a one-coin output is accepted. -/
theorem C1_counterexample_product_wraps :
    minAgeViolation exampleEnv { nTime := 1000 } 346600 = false ∧
    bnCoinDayWeight exampleEnv { nValue := 16777216 * 100000000, scriptPubKey := [] }
      { nTime := 1000 } 346600 = 16777216 ∧
    SetCompact 545259519 =
      { value := 8388607 * 2 ^ 232, fNegative := false, fOverflow := false } ∧
    UintToArith256 (CheckStakeKernelHash exampleEnv 545259519 { nTime := 1000 } 81
        { nValue := 16777216 * 100000000, scriptPubKey := [] } { hash := 7, n := 0 }
        346600 0).2 ≤
      bnCoinDayWeight exampleEnv { nValue := 16777216 * 100000000, scriptPubKey := [] }
        { nTime := 1000 } 346600 * bnTargetPerCoinDay 545259519 ∧
    (CheckStakeKernelHash exampleEnv 545259519 { nTime := 1000 } 81
        { nValue := 16777216 * 100000000, scriptPubKey := [] } { hash := 7, n := 0 }
        346600 0).1 = false ∧
    (CheckStakeKernelHash exampleEnv 545259519 { nTime := 1000 } 81
        { nValue := 100000000, scriptPubKey := [] } { hash := 7, n := 0 } 346600 0).1 = true ∧
    (CheckStakeKernelHash exampleEnv 545259519 { nTime := 1000 } 81
        { nValue := 100000000, scriptPubKey := [] } { hash := 7, n := 0 } 346600 0).2 =
      (CheckStakeKernelHash exampleEnv 545259519 { nTime := 1000 } 81
        { nValue := 16777216 * 100000000, scriptPubKey := [] } { hash := 7, n := 0 }
        346600 0).2 := by
  refine ⟨by decide, by decide, by decide, by decide, by decide, by decide, by decide⟩

/-! ## C2: min-age rule -/

/-- C2: for every 32-bit block time, every candidate time and every
`nStakeMinAge` whose `int64_t` sum with the block time is representable, the
min-age branch of `CheckStakeKernelHash` is taken if and only if
`nTimeTx − nTime < nStakeMinAge` (exact integers, no 32-bit wrap-around); when
it is taken the function returns false at once, otherwise it goes on to
compute the proof hash; `nTimeTx = nTime + nStakeMinAge` passes and
`nTimeTx − nTime = nStakeMinAge − 1` is rejected. -/
theorem C2_min_age_rule (E : Env) (nBits : Nat) (blockFrom : CBlockHeader)
    (nTxPrevOffset : Nat) (txOutPrev : CTxOut) (prevout : COutPoint) (nTimeTx : Nat)
    (hashProofOfStake : uint256) (hb : blockFrom.nTime < 2 ^ 32)
    (hmin : -9223372036854775808 ≤ E.nStakeMinAge)
    (hsum : (blockFrom.nTime : Int) + E.nStakeMinAge ≤ 9223372036854775807) :
    (minAgeViolation E blockFrom nTimeTx = true ↔
      (nTimeTx : Int) - (blockFrom.nTime : Int) < E.nStakeMinAge) ∧
    (minAgeViolation E blockFrom nTimeTx = true →
      CheckStakeKernelHash E nBits blockFrom nTxPrevOffset txOutPrev prevout nTimeTx
        hashProofOfStake = (false, hashProofOfStake)) ∧
    (minAgeViolation E blockFrom nTimeTx = false →
      (CheckStakeKernelHash E nBits blockFrom nTxPrevOffset txOutPrev prevout nTimeTx
        hashProofOfStake).2 =
        E.Hash (kernelStream nBits blockFrom nTxPrevOffset prevout nTimeTx)) ∧
    ((nTimeTx : Int) = (blockFrom.nTime : Int) + E.nStakeMinAge →
      minAgeViolation E blockFrom nTimeTx = false) ∧
    ((nTimeTx : Int) - (blockFrom.nTime : Int) = E.nStakeMinAge - 1 →
      minAgeViolation E blockFrom nTimeTx = true) := by
  have hiff := minAgeViolation_iff E blockFrom nTimeTx hb hmin hsum
  refine ⟨?_, ?_, ?_, ?_, ?_⟩
  · rw [hiff]; omega
  · exact CheckStakeKernelHash_of_violation E nBits blockFrom nTxPrevOffset txOutPrev prevout
      nTimeTx hashProofOfStake
  · intro hpass
    rw [CheckStakeKernelHash_of_pass E nBits blockFrom nTxPrevOffset txOutPrev prevout nTimeTx
      hashProofOfStake hpass]
  · intro heq
    cases hv : minAgeViolation E blockFrom nTimeTx with
    | false => rfl
    | true => exact absurd (hiff.mp hv) (by omega)
  · intro heq
    exact hiff.mpr (by omega)

/-- C2 witness: block time 1000, minimum age 259200, candidate time exactly
at the boundary 260200. -/
theorem C2_min_age_rule_witness :
    (1000 : Nat) < 2 ^ 32 ∧
    (-9223372036854775808 : Int) ≤ exampleEnv.nStakeMinAge ∧
    ((1000 : Nat) : Int) + exampleEnv.nStakeMinAge ≤ 9223372036854775807 ∧
    minAgeViolation exampleEnv { nTime := 1000 } 260200 = false :=
  ⟨by decide, by decide, by decide,
    (C2_min_age_rule exampleEnv 545259519 { nTime := 1000 } 81
      { nValue := 100000000, scriptPubKey := [] } { hash := 7, n := 0 } 260200 0
      (by decide) (by decide) (by decide)).2.2.2.1 (by decide)⟩

/-! ## C3: composite verdict -/

/-- C3: for a candidate whose input 0 exists, `CheckProofOfStake` returns true
if and only if `GetTransaction` finds the previous transaction, the script
check of input 0 against the referenced output succeeds, `FindTx` succeeds
and `CheckStakeKernelHash` accepts (the referenced output index being in
range in both copies of the previous transaction); and when it returns true
the proof hash is the kernel hash of bits, block time, offset, output index
and candidate time. -/
theorem C3_composite_verdict (E : Env) (state : CValidationState) (tx : CTransaction)
    (nBits : Nat) (hashProofOfStake : uint256) (nBlockTime : Nat) (txin : CTxIn)
    (hvin : tx.vin[0]? = some txin) :
    ((∃ hashOut stateOut, CheckProofOfStake E state tx nBits hashProofOfStake nBlockTime =
        some (true, hashOut, stateOut)) ↔
      ∃ txTmp txOutTmp postx header txPrev txOutPrev,
        E.GetTransaction txin.prevout.hash = some txTmp ∧
        txTmp.vout[txin.prevout.n]? = some txOutTmp ∧
        E.CScriptCheck txOutTmp tx 0 0 true = true ∧
        E.FindTx txin.prevout.hash = some (postx, header, txPrev) ∧
        txPrev.vout[txin.prevout.n]? = some txOutPrev ∧
        (CheckStakeKernelHash E nBits header
          ((postx.nTxOffset + E.sizeofCBlockHeader) % 2 ^ 32) txOutPrev txin.prevout
          nBlockTime hashProofOfStake).1 = true) ∧
    (∀ hashOut stateOut, CheckProofOfStake E state tx nBits hashProofOfStake nBlockTime =
        some (true, hashOut, stateOut) →
      ∃ postx header txPrev, E.FindTx txin.prevout.hash = some (postx, header, txPrev) ∧
        hashOut = E.Hash (kernelStream nBits header
          ((postx.nTxOffset + E.sizeofCBlockHeader) % 2 ^ 32) txin.prevout nBlockTime)) := by
  cases hG : E.GetTransaction txin.prevout.hash with
  | none =>
    rw [CheckProofOfStake_of_not_found E state tx nBits hashProofOfStake nBlockTime txin hvin hG]
    simp
  | some txTmp =>
    cases hO : txTmp.vout[txin.prevout.n]? with
    | none =>
      rw [CheckProofOfStake_of_tmp_range E state tx nBits hashProofOfStake nBlockTime txin
        txTmp hvin hG hO]
      simp [hO]
    | some txOutTmp =>
      cases hS : E.CScriptCheck txOutTmp tx 0 0 true with
      | false =>
        rw [CheckProofOfStake_of_bad_script E state tx nBits hashProofOfStake nBlockTime txin
          txTmp txOutTmp hvin hG hO hS]
        simp [hO, hS]
      | true =>
        cases hF : E.FindTx txin.prevout.hash with
        | none =>
          rw [CheckProofOfStake_of_no_location E state tx nBits hashProofOfStake nBlockTime
            txin txTmp txOutTmp hvin hG hO hS hF]
          simp
        | some found =>
          obtain ⟨postx, header, txPrev⟩ := found
          cases hP : txPrev.vout[txin.prevout.n]? with
          | none =>
            rw [CheckProofOfStake_of_prev_range E state tx nBits hashProofOfStake nBlockTime
              txin txTmp txOutTmp postx header txPrev hvin hG hO hS hF hP]
            simp [hP]
          | some txOutPrev =>
            rw [CheckProofOfStake_of_kernel E state tx nBits hashProofOfStake nBlockTime
              txin txTmp txOutTmp postx header txPrev txOutPrev hvin hG hO hS hF hP]
            constructor
            · constructor
              · rintro ⟨hashOut, stateOut, h⟩
                refine ⟨txTmp, txOutTmp, postx, header, txPrev, txOutPrev, rfl, hO, hS, rfl,
                  hP, ?_⟩
                simp only [Option.some.injEq, Prod.mk.injEq] at h
                exact h.1
              · rintro ⟨txTmp2, txOutTmp2, postx2, header2, txPrev2, txOutPrev2, -, -, -, h4,
                  h5, h6⟩
                simp only [Option.some.injEq, Prod.mk.injEq] at h4
                obtain ⟨rfl, rfl, rfl⟩ := h4
                rw [hP] at h5
                simp only [Option.some.injEq] at h5
                subst h5
                exact ⟨_, _, by rw [h6]⟩
            · intro hashOut stateOut h
              simp only [Option.some.injEq, Prod.mk.injEq] at h
              refine ⟨postx, header, txPrev, rfl, ?_⟩
              have hpass : minAgeViolation E header nBlockTime = false := by
                cases hv : minAgeViolation E header nBlockTime with
                | false => rfl
                | true =>
                  rw [CheckStakeKernelHash_of_violation E nBits header _ txOutPrev txin.prevout
                    nBlockTime hashProofOfStake hv] at h
                  exact absurd h.1 (by simp)
              rw [CheckStakeKernelHash_of_pass E nBits header _ txOutPrev txin.prevout
                nBlockTime hashProofOfStake hpass] at h
              exact h.2.1.symm

/-- C3 witness: the worked candidate under the target `0x1d00ffff` at time
346600 passes every stage and is accepted. -/
theorem C3_composite_verdict_witness :
    exampleTx.vin[0]? = some { prevout := { hash := 7, n := 0 }, scriptSig := [1] } ∧
    ∃ hashOut stateOut,
      CheckProofOfStake exampleEnv { nDoS := 0, strRejectReason := "" } exampleTx 486604799 0
        346600 = some (true, hashOut, stateOut) :=
  ⟨rfl,
    (C3_composite_verdict exampleEnv { nDoS := 0, strRejectReason := "" } exampleTx 486604799 0
      346600 { prevout := { hash := 7, n := 0 }, scriptSig := [1] } rfl).1.mpr
      ⟨exampleTxPrev, { nValue := 16777216 * 100000000, scriptPubKey := [118] },
        { nTxOffset := 1 }, { nTime := 1000 }, exampleTxPrev,
        { nValue := 16777216 * 100000000, scriptPubKey := [118] },
        rfl, rfl, rfl, rfl, rfl, by decide⟩⟩

/-! ## C4: kernel hash preimage -/

/-- C4: for every input that passes the min-age check, the proof hash is the
network hash of exactly 24 bytes: the four little-endian bytes of bits, of the
containing block time, of the transaction offset, of the containing block time
once more, of the previous output index and of the candidate time, in that
order, and of nothing else. -/
theorem C4_kernel_preimage (E : Env) (nBits : Nat) (blockFrom : CBlockHeader)
    (nTxPrevOffset : Nat) (txOutPrev : CTxOut) (prevout : COutPoint) (nTimeTx : Nat)
    (hashProofOfStake : uint256) (hb : blockFrom.nTime < 2 ^ 32)
    (hpass : minAgeViolation E blockFrom nTimeTx = false) :
    (CheckStakeKernelHash E nBits blockFrom nTxPrevOffset txOutPrev prevout nTimeTx
        hashProofOfStake).2 =
      E.Hash
        [nBits % 256, nBits / 256 % 256, nBits / 65536 % 256, nBits / 16777216 % 256,
          blockFrom.nTime % 256, blockFrom.nTime / 256 % 256, blockFrom.nTime / 65536 % 256,
          blockFrom.nTime / 16777216 % 256,
          nTxPrevOffset % 256, nTxPrevOffset / 256 % 256, nTxPrevOffset / 65536 % 256,
          nTxPrevOffset / 16777216 % 256,
          blockFrom.nTime % 256, blockFrom.nTime / 256 % 256, blockFrom.nTime / 65536 % 256,
          blockFrom.nTime / 16777216 % 256,
          prevout.n % 256, prevout.n / 256 % 256, prevout.n / 65536 % 256,
          prevout.n / 16777216 % 256,
          nTimeTx % 256, nTimeTx / 256 % 256, nTimeTx / 65536 % 256,
          nTimeTx / 16777216 % 256] ∧
    (kernelStream nBits blockFrom nTxPrevOffset prevout nTimeTx).length = 24 ∧
    kernelStream nBits blockFrom nTxPrevOffset prevout nTimeTx =
      ser_uint32 nBits ++ ser_uint32 blockFrom.nTime ++ ser_uint32 nTxPrevOffset ++
        ser_uint32 blockFrom.nTime ++ ser_uint32 prevout.n ++ ser_uint32 nTimeTx := by
  rw [CheckStakeKernelHash_of_pass E nBits blockFrom nTxPrevOffset txOutPrev prevout nTimeTx
    hashProofOfStake hpass]
  unfold kernelStream
  rw [nTimeBlockFrom_eq hb]
  exact ⟨rfl, rfl, rfl⟩

/-- C4 witness: the worked input; the stream is the 24 bytes shown. -/
theorem C4_kernel_preimage_witness :
    (1000 : Nat) < 2 ^ 32 ∧
    minAgeViolation exampleEnv { nTime := 1000 } 346600 = false ∧
    (CheckStakeKernelHash exampleEnv 486604799 { nTime := 1000 } 81
        { nValue := 100000000, scriptPubKey := [] } { hash := 7, n := 2 } 346600 0).2 =
      exampleEnv.Hash
        [255, 255, 0, 29, 232, 3, 0, 0, 81, 0, 0, 0, 232, 3, 0, 0, 2, 0, 0, 0, 232, 73, 5, 0] :=
  ⟨by decide, by decide,
    (C4_kernel_preimage exampleEnv 486604799 { nTime := 1000 } 81
      { nValue := 100000000, scriptPubKey := [] } { hash := 7, n := 2 } 346600 0
      (by decide) (by decide)).1⟩

/-- Four bytes produced by `ser_uint32` are the little-endian digits of a
32-bit value: each is below 256 and together they give the value back. -/
theorem ser_uint32_littleEndian (x : Nat) (hx : x < 2 ^ 32) :
    (∀ b ∈ ser_uint32 x, b < 256) ∧
    x = x % 256 + 256 * (x / 256 % 256) + 65536 * (x / 65536 % 256) +
      16777216 * (x / 16777216 % 256) := by
  constructor
  · intro b hbmem
    simp only [ser_uint32, List.mem_cons, List.mem_singleton, List.not_mem_nil,
      or_false] at hbmem
    omega
  · omega

/-! ## C5 and C6: coin-day weight -/

/-- The window of the weighted time: when the min-age test passes, with parameters
`0 ≤ nStakeMinAge ≤ nStakeMaxAge`, the weighted time of line 52 is
`min(nTimeTx − nTime, nStakeMaxAge) − nStakeMinAge` and lies in
`[0, nStakeMaxAge − nStakeMinAge]`. -/
theorem nTimeWeight_window (E : Env) (blockFrom : CBlockHeader) (nTimeTx : Nat)
    (hb : blockFrom.nTime < 2 ^ 32) (ht : nTimeTx < 2 ^ 32)
    (h0 : 0 ≤ E.nStakeMinAge) (h1 : E.nStakeMinAge ≤ E.nStakeMaxAge)
    (hsum : (blockFrom.nTime : Int) + E.nStakeMinAge ≤ 9223372036854775807)
    (hpass : minAgeViolation E blockFrom nTimeTx = false) :
    nTimeWeight E blockFrom nTimeTx =
      min ((nTimeTx : Int) - (blockFrom.nTime : Int)) E.nStakeMaxAge - E.nStakeMinAge ∧
    0 ≤ nTimeWeight E blockFrom nTimeTx ∧
    nTimeWeight E blockFrom nTimeTx ≤ E.nStakeMaxAge - E.nStakeMinAge := by
  have hv := minAgeViolation_iff E blockFrom nTimeTx hb (by omega) hsum
  rw [hpass] at hv
  have hle : (blockFrom.nTime : Int) + E.nStakeMinAge ≤ (nTimeTx : Int) := by
    by_contra hc
    exact absurd (hv.mpr (by omega)) (by simp)
  rw [nTimeWeight_eq E blockFrom nTimeTx hb ht h0 h1 hsum hpass]
  refine ⟨rfl, ?_, ?_⟩ <;> omega

/-- C6: for every input that passes the min-age check, with parameters
`0 ≤ nStakeMinAge ≤ nStakeMaxAge`, the weighted time of line 52 is
`min(nTimeTx − nTime, nStakeMaxAge) − nStakeMinAge` and lies in
`[0, nStakeMaxAge − nStakeMinAge]`. -/
theorem C6_weighted_time_window (E : Env) (blockFrom : CBlockHeader) (nTimeTx : Nat)
    (hb : blockFrom.nTime < 2 ^ 32) (ht : nTimeTx < 2 ^ 32)
    (h0 : 0 ≤ E.nStakeMinAge) (h1 : E.nStakeMinAge ≤ E.nStakeMaxAge)
    (hsum : (blockFrom.nTime : Int) + E.nStakeMinAge ≤ 9223372036854775807)
    (hpass : minAgeViolation E blockFrom nTimeTx = false) :
    nTimeWeight E blockFrom nTimeTx =
      min ((nTimeTx : Int) - (blockFrom.nTime : Int)) E.nStakeMaxAge - E.nStakeMinAge ∧
    0 ≤ nTimeWeight E blockFrom nTimeTx ∧
    nTimeWeight E blockFrom nTimeTx ≤ E.nStakeMaxAge - E.nStakeMinAge :=
  nTimeWeight_window E blockFrom nTimeTx hb ht h0 h1 hsum hpass

/-- C6 witness: block time 1000, candidate time 346600, ages 259200 and
2592000: the weighted time is 86400. -/
theorem C6_weighted_time_window_witness :
    (1000 : Nat) < 2 ^ 32 ∧ (346600 : Nat) < 2 ^ 32 ∧
    (0 : Int) ≤ exampleEnv.nStakeMinAge ∧ exampleEnv.nStakeMinAge ≤ exampleEnv.nStakeMaxAge ∧
    ((1000 : Nat) : Int) + exampleEnv.nStakeMinAge ≤ 9223372036854775807 ∧
    minAgeViolation exampleEnv { nTime := 1000 } 346600 = false ∧
    (0 : Int) ≤ nTimeWeight exampleEnv { nTime := 1000 } 346600 ∧
    nTimeWeight exampleEnv { nTime := 1000 } 346600 ≤
      exampleEnv.nStakeMaxAge - exampleEnv.nStakeMinAge :=
  ⟨by decide, by decide, by decide, by decide, by decide, by decide,
    (C6_weighted_time_window exampleEnv { nTime := 1000 } 346600 (by decide) (by decide)
      (by decide) (by decide) (by decide) (by decide)).2⟩

/-- C5: for every non-negative 64-bit output value and every input that
passes the min-age check, with parameters `0 ≤ nStakeMinAge ≤ nStakeMaxAge`,
the weight of line 53 is `⌊⌊nValue × weightedSeconds / COIN⌋ / 86400⌋` with
`weightedSeconds = min(nTimeTx − nTime, nStakeMaxAge) − nStakeMinAge` and the
product taken exactly; equivalently `⌊nValue × weightedSeconds / (COIN × 86400)⌋`. -/
theorem C5_coin_day_weight_formula (E : Env) (txOutPrev : CTxOut) (blockFrom : CBlockHeader)
    (nTimeTx : Nat) (hb : blockFrom.nTime < 2 ^ 32) (ht : nTimeTx < 2 ^ 32)
    (hv0 : 0 ≤ txOutPrev.nValue) (hv1 : txOutPrev.nValue ≤ 9223372036854775807)
    (h0 : 0 ≤ E.nStakeMinAge) (h1 : E.nStakeMinAge ≤ E.nStakeMaxAge)
    (hsum : (blockFrom.nTime : Int) + E.nStakeMinAge ≤ 9223372036854775807)
    (hpass : minAgeViolation E blockFrom nTimeTx = false) :
    ((bnCoinDayWeight E txOutPrev blockFrom nTimeTx : Nat) : Int) =
      txOutPrev.nValue *
          (min ((nTimeTx : Int) - (blockFrom.nTime : Int)) E.nStakeMaxAge - E.nStakeMinAge) /
        (E.COIN : Int) / 86400 ∧
    bnCoinDayWeight E txOutPrev blockFrom nTimeTx =
      txOutPrev.nValue.toNat *
          (min ((nTimeTx : Int) - (blockFrom.nTime : Int)) E.nStakeMaxAge
            - E.nStakeMinAge).toNat / E.COIN / 86400 ∧
    bnCoinDayWeight E txOutPrev blockFrom nTimeTx =
      txOutPrev.nValue.toNat *
          (min ((nTimeTx : Int) - (blockFrom.nTime : Int)) E.nStakeMaxAge
            - E.nStakeMinAge).toNat / (E.COIN * 86400) := by
  obtain ⟨hw, hw0, -⟩ := nTimeWeight_window E blockFrom nTimeTx hb ht h0 h1 hsum hpass
  have ht' : (nTimeTx : Int) < 4294967296 := by exact_mod_cast ht
  have hw1 : nTimeWeight E blockFrom nTimeTx < 4294967296 := by
    rw [hw]; omega
  have key := bnCoinDayWeight_eq E txOutPrev blockFrom nTimeTx hv0 hv1 hw0 hw1
  rw [hw] at key hw0
  refine ⟨?_, key, ?_⟩
  · rw [key]
    push_cast
    rw [Int.toNat_of_nonneg hv0, Int.toNat_of_nonneg hw0]
  · rw [key, Nat.div_div_eq_div_mul]

/-- C5 witness: `2 ^ 24` coins aged one day past the minimum weigh
`2 ^ 24` coin-days. -/
theorem C5_coin_day_weight_formula_witness :
    (1000 : Nat) < 2 ^ 32 ∧ (346600 : Nat) < 2 ^ 32 ∧
    (0 : Int) ≤ 16777216 * 100000000 ∧ (16777216 * 100000000 : Int) ≤ 9223372036854775807 ∧
    (0 : Int) ≤ exampleEnv.nStakeMinAge ∧ exampleEnv.nStakeMinAge ≤ exampleEnv.nStakeMaxAge ∧
    ((1000 : Nat) : Int) + exampleEnv.nStakeMinAge ≤ 9223372036854775807 ∧
    minAgeViolation exampleEnv { nTime := 1000 } 346600 = false ∧
    bnCoinDayWeight exampleEnv { nValue := 16777216 * 100000000, scriptPubKey := [] }
        { nTime := 1000 } 346600 =
      (16777216 * 100000000 : Int).toNat *
          (min (((346600 : Nat) : Int) - ((1000 : Nat) : Int)) exampleEnv.nStakeMaxAge
            - exampleEnv.nStakeMinAge).toNat / (exampleEnv.COIN * 86400) :=
  ⟨by decide, by decide, by decide, by decide, by decide, by decide, by decide, by decide,
    (C5_coin_day_weight_formula exampleEnv
      { nValue := 16777216 * 100000000, scriptPubKey := [] } { nTime := 1000 } 346600
      (by decide) (by decide) (by decide) (by decide) (by decide) (by decide) (by decide)
      (by decide)).2.2⟩

/-! ## C7 and C8: short circuits -/

/-- C7: whenever `GetTransaction` reports the previous transaction of input 0
as not found, `CheckProofOfStake` returns false and leaves the proof hash and
the validation state unchanged; the same holds in every environment with the
same `GetTransaction`, whatever its script check (and every other
collaborator) would answer. -/
theorem C7_prev_not_found (E : Env) (state : CValidationState) (tx : CTransaction)
    (nBits : Nat) (hashProofOfStake : uint256) (nBlockTime : Nat) (txin : CTxIn)
    (hvin : tx.vin[0]? = some txin) (hG : E.GetTransaction txin.prevout.hash = none)
    (E2 : Env) (hsame : E2.GetTransaction = E.GetTransaction) :
    CheckProofOfStake E state tx nBits hashProofOfStake nBlockTime =
      some (false, hashProofOfStake, state) ∧
    CheckProofOfStake E2 state tx nBits hashProofOfStake nBlockTime =
      some (false, hashProofOfStake, state) :=
  ⟨CheckProofOfStake_of_not_found E state tx nBits hashProofOfStake nBlockTime txin hvin hG,
    CheckProofOfStake_of_not_found E2 state tx nBits hashProofOfStake nBlockTime txin hvin
      (by rw [hsame]; exact hG)⟩

/-- C7 witness: the worked candidate against an index that does not know the
previous transaction. -/
theorem C7_prev_not_found_witness :
    exampleTx.vin[0]? = some { prevout := { hash := 7, n := 0 }, scriptSig := [1] } ∧
    exampleEnvNotFound.GetTransaction 7 = none ∧
    CheckProofOfStake exampleEnvNotFound { nDoS := 0, strRejectReason := "" } exampleTx
      486604799 5 346600 = some (false, 5, { nDoS := 0, strRejectReason := "" }) :=
  ⟨rfl, rfl,
    (C7_prev_not_found exampleEnvNotFound { nDoS := 0, strRejectReason := "" } exampleTx
      486604799 5 346600 { prevout := { hash := 7, n := 0 }, scriptSig := [1] } rfl rfl
      exampleEnvNotFound rfl).1⟩

/-- C8: whenever the previous transaction is found and the script check of
input 0 fails, `CheckProofOfStake` returns false and leaves the proof hash and
the validation state unchanged, for every bits and candidate time; the same
holds in every environment with the same `GetTransaction` and script check,
whatever its `FindTx`, hash function and consensus parameters are (so
whatever the block time and the output value the index would report). -/
theorem C8_bad_script (E : Env) (state : CValidationState) (tx : CTransaction)
    (nBits : Nat) (hashProofOfStake : uint256) (nBlockTime : Nat) (txin : CTxIn)
    (txTmp : CTransaction) (txOutTmp : CTxOut) (hvin : tx.vin[0]? = some txin)
    (hG : E.GetTransaction txin.prevout.hash = some txTmp)
    (hO : txTmp.vout[txin.prevout.n]? = some txOutTmp)
    (hS : E.CScriptCheck txOutTmp tx 0 0 true = false)
    (E2 : Env) (hsameG : E2.GetTransaction = E.GetTransaction)
    (hsameS : E2.CScriptCheck = E.CScriptCheck) (nBits2 nBlockTime2 : Nat) :
    CheckProofOfStake E state tx nBits hashProofOfStake nBlockTime =
      some (false, hashProofOfStake, state) ∧
    CheckProofOfStake E2 state tx nBits2 hashProofOfStake nBlockTime2 =
      some (false, hashProofOfStake, state) :=
  ⟨CheckProofOfStake_of_bad_script E state tx nBits hashProofOfStake nBlockTime txin txTmp
      txOutTmp hvin hG hO hS,
    CheckProofOfStake_of_bad_script E2 state tx nBits2 hashProofOfStake nBlockTime2 txin txTmp
      txOutTmp hvin (by rw [hsameG]; exact hG) hO (by rw [hsameS]; exact hS)⟩

/-- C8 witness: the worked candidate against a failing script check. -/
theorem C8_bad_script_witness :
    exampleTx.vin[0]? = some { prevout := { hash := 7, n := 0 }, scriptSig := [1] } ∧
    exampleEnvBadScript.GetTransaction 7 = some exampleTxPrev ∧
    exampleTxPrev.vout[0]? = some { nValue := 16777216 * 100000000, scriptPubKey := [118] } ∧
    exampleEnvBadScript.CScriptCheck { nValue := 16777216 * 100000000, scriptPubKey := [118] }
      exampleTx 0 0 true = false ∧
    CheckProofOfStake exampleEnvBadScript { nDoS := 0, strRejectReason := "" } exampleTx
      486604799 5 346600 = some (false, 5, { nDoS := 0, strRejectReason := "" }) :=
  ⟨rfl, rfl, rfl, rfl,
    (C8_bad_script exampleEnvBadScript { nDoS := 0, strRejectReason := "" } exampleTx
      486604799 5 346600 { prevout := { hash := 7, n := 0 }, scriptSig := [1] } exampleTxPrev
      { nValue := 16777216 * 100000000, scriptPubKey := [118] } rfl rfl rfl rfl
      exampleEnvBadScript rfl rfl 0 0).1⟩

/-! ## C9: what the caller can tell apart -/

/-- An exponent byte of 35 or more shifts every mantissa bit out of the 256
bits: the decoded value is 0. -/
theorem SetCompact_value_of_large_exponent (nBits : Nat) (hsize : 35 ≤ nBits / 2 ^ 24) :
    (SetCompact nBits).value = 0 := by
  have hnot : ¬ nBits / 2 ^ 24 ≤ 3 := by omega
  have hdvd : 2 ^ 256 ∣ nBits % 2 ^ 23 * 2 ^ (8 * (nBits / 2 ^ 24 - 3)) :=
    Dvd.dvd.mul_left (pow_dvd_pow 2 (by omega)) _
  simp only [SetCompact, if_neg hnot]
  exact Nat.mod_eq_zero_of_dvd hdvd

/-- Clearing the sign bit of a compact value does not change the decoded
value: the decoder masks the mantissa to 23 bits. -/
theorem bnTargetPerCoinDay_sign_bit (nBits : Nat) :
    bnTargetPerCoinDay nBits =
      bnTargetPerCoinDay (nBits % 2 ^ 23 + 2 ^ 24 * (nBits / 2 ^ 24)) := by
  have e1 : (nBits % 2 ^ 23 + 2 ^ 24 * (nBits / 2 ^ 24)) / 2 ^ 24 = nBits / 2 ^ 24 := by
    omega
  have e2 : (nBits % 2 ^ 23 + 2 ^ 24 * (nBits / 2 ^ 24)) % 2 ^ 23 = nBits % 2 ^ 23 := by
    omega
  simp only [bnTargetPerCoinDay, SetCompact, e1, e2]

/-- A non-zero mantissa under an exponent byte of 35 or more is reported as
overflowing by the decoder. -/
theorem SetCompact_fOverflow_of_large_exponent (nBits : Nat) (hsize : 35 ≤ nBits / 2 ^ 24)
    (hword : nBits % 2 ^ 23 ≠ 0) : (SetCompact nBits).fOverflow = true := by
  have hnot : ¬ nBits / 2 ^ 24 ≤ 3 := by omega
  simp only [SetCompact, if_neg hnot]
  simp only [ne_eq, gt_iff_lt, Bool.and_eq_true, Bool.or_eq_true, decide_eq_true_eq]
  omega

/-- C10 (as amended): `CheckStakeKernelHash` does not test the negative or
overflow indication of the compact decoding, so an invalid target does not by
itself fail validation. For every bits value and every input that passes the
min-age check: the sign bit does not change the target used; the stake is
accepted if and only if its proof hash is at most `(weight × target) mod
2 ^ 256`, the target being the decoded value kept to 256 bits; whenever that
target is 0 the stake is accepted only if its proof hash is the all-zero value;
and the target is 0 for every bits value whose exponent byte is 35 or more
(each of which overflows when its mantissa is non-zero). -/
theorem C10_invalid_target_not_rejected (E : Env) (nBits : Nat)
    (blockFrom : CBlockHeader) (nTxPrevOffset : Nat) (txOutPrev : CTxOut)
    (prevout : COutPoint) (nTimeTx : Nat) (hashProofOfStake : uint256)
    (hpass : minAgeViolation E blockFrom nTimeTx = false) :
    bnTargetPerCoinDay nBits =
      bnTargetPerCoinDay (nBits % 2 ^ 23 + 2 ^ 24 * (nBits / 2 ^ 24)) ∧
    ((CheckStakeKernelHash E nBits blockFrom nTxPrevOffset txOutPrev prevout nTimeTx
        hashProofOfStake).1 = true ↔
      UintToArith256 (CheckStakeKernelHash E nBits blockFrom nTxPrevOffset txOutPrev prevout
        nTimeTx hashProofOfStake).2 ≤
        (bnCoinDayWeight E txOutPrev blockFrom nTimeTx * bnTargetPerCoinDay nBits) % 2 ^ 256) ∧
    (bnTargetPerCoinDay nBits = 0 →
      ((CheckStakeKernelHash E nBits blockFrom nTxPrevOffset txOutPrev prevout nTimeTx
          hashProofOfStake).1 = true ↔
        UintToArith256 (CheckStakeKernelHash E nBits blockFrom nTxPrevOffset txOutPrev prevout
          nTimeTx hashProofOfStake).2 = 0)) ∧
    (35 ≤ nBits / 2 ^ 24 →
      bnTargetPerCoinDay nBits = 0 ∧
      (nBits % 2 ^ 23 ≠ 0 → (SetCompact nBits).fOverflow = true)) := by
  rw [CheckStakeKernelHash_of_pass E nBits blockFrom nTxPrevOffset txOutPrev prevout nTimeTx
    hashProofOfStake hpass]
  unfold arith_uint256.mul
  refine ⟨bnTargetPerCoinDay_sign_bit nBits, ?_, ?_, ?_⟩
  · simp only [decide_eq_true_eq]
  · intro hzero
    rw [hzero]
    simp only [Nat.mul_zero, Nat.zero_mod, Nat.le_zero_eq, decide_eq_true_eq]
  · intro hsize
    exact ⟨SetCompact_value_of_large_exponent nBits hsize,
      SetCompact_fOverflow_of_large_exponent nBits hsize⟩

/-- C10 witness: the bits value `0x23000001` (exponent 35, mantissa 1,
reported as overflowing): the target used is 0 and the one-coin stake is
accepted only for an all-zero proof hash, so here it is rejected. -/
theorem C10_invalid_target_not_rejected_witness :
    minAgeViolation exampleEnv { nTime := 1000 } 346600 = false ∧
    (SetCompact 587202561).fOverflow = true ∧
    bnTargetPerCoinDay 587202561 = 0 ∧
    ((CheckStakeKernelHash exampleEnv 587202561 { nTime := 1000 } 81
        { nValue := 100000000, scriptPubKey := [] } { hash := 7, n := 0 } 346600 0).1 = true ↔
      UintToArith256 (CheckStakeKernelHash exampleEnv 587202561 { nTime := 1000 } 81
        { nValue := 100000000, scriptPubKey := [] } { hash := 7, n := 0 } 346600 0).2 = 0) ∧
    (CheckStakeKernelHash exampleEnv 587202561 { nTime := 1000 } 81
        { nValue := 100000000, scriptPubKey := [] } { hash := 7, n := 0 } 346600 0).1 = false :=
  ⟨by decide,
    ((C10_invalid_target_not_rejected exampleEnv 587202561 { nTime := 1000 } 81
      { nValue := 100000000, scriptPubKey := [] } { hash := 7, n := 0 } 346600 0
      (by decide)).2.2.2 (by decide)).2 (by decide),
    ((C10_invalid_target_not_rejected exampleEnv 587202561 { nTime := 1000 } 81
      { nValue := 100000000, scriptPubKey := [] } { hash := 7, n := 0 } 346600 0
      (by decide)).2.2.2 (by decide)).1,
    (C10_invalid_target_not_rejected exampleEnv 587202561 { nTime := 1000 } 81
      { nValue := 100000000, scriptPubKey := [] } { hash := 7, n := 0 } 346600 0
      (by decide)).2.2.1 (by decide),
    by decide⟩

/-- C10 counterexample: one coin aged one day past the minimum. Under
`0x20ffffff` (sign bit set, non-zero mantissa: negative) and under
`0x2200ffff` (exponent 34 with a two-byte mantissa: overflow)
`CheckStakeKernelHash` accepts. -/
theorem C10_counterexample_invalid_target_accepted :
    (SetCompact 553648127).fNegative = true ∧
    minAgeViolation exampleEnv { nTime := 1000 } 346600 = false ∧
    (CheckStakeKernelHash exampleEnv 553648127 { nTime := 1000 } 81
        { nValue := 100000000, scriptPubKey := [] } { hash := 7, n := 0 } 346600 0).1 = true ∧
    (SetCompact 570490879).fOverflow = true ∧
    (CheckStakeKernelHash exampleEnv 570490879 { nTime := 1000 } 81
        { nValue := 100000000, scriptPubKey := [] } { hash := 7, n := 0 } 346600 0).1 = true := by
  refine ⟨by decide, by decide, by decide, by decide, by decide⟩

/-! ## C11: out-of-range vector accesses -/

/-- When input 0 exists and names an output that exists in both copies of the
previous transaction, `CheckProofOfStake` returns a verdict. -/
theorem CheckProofOfStake_isSome_of_in_range (E : Env) (state : CValidationState)
    (tx : CTransaction) (nBits : Nat) (hashProofOfStake : uint256) (nBlockTime : Nat)
    (txin : CTxIn) (hvin : tx.vin[0]? = some txin)
    (hTmp : ∀ txTmp, E.GetTransaction txin.prevout.hash = some txTmp →
      txin.prevout.n < txTmp.vout.length)
    (hPrev : ∀ postx header txPrev,
      E.FindTx txin.prevout.hash = some (postx, header, txPrev) →
      txin.prevout.n < txPrev.vout.length) :
    ∃ r, CheckProofOfStake E state tx nBits hashProofOfStake nBlockTime = some r := by
  cases hG : E.GetTransaction txin.prevout.hash with
  | none =>
    exact ⟨_, CheckProofOfStake_of_not_found E state tx nBits hashProofOfStake nBlockTime txin
      hvin hG⟩
  | some txTmp =>
    have hlt := hTmp txTmp hG
    have hO : txTmp.vout[txin.prevout.n]? = some (txTmp.vout[txin.prevout.n]) :=
      List.getElem?_eq_getElem hlt
    cases hS : E.CScriptCheck (txTmp.vout[txin.prevout.n]) tx 0 0 true with
    | false =>
      exact ⟨_, CheckProofOfStake_of_bad_script E state tx nBits hashProofOfStake nBlockTime
        txin txTmp _ hvin hG hO hS⟩
    | true =>
      cases hF : E.FindTx txin.prevout.hash with
      | none =>
        exact ⟨_, CheckProofOfStake_of_no_location E state tx nBits hashProofOfStake
          nBlockTime txin txTmp _ hvin hG hO hS hF⟩
      | some found =>
        obtain ⟨postx, header, txPrev⟩ := found
        have hlt2 := hPrev postx header txPrev hF
        have hP : txPrev.vout[txin.prevout.n]? = some (txPrev.vout[txin.prevout.n]) :=
          List.getElem?_eq_getElem hlt2
        exact ⟨_, CheckProofOfStake_of_kernel E state tx nBits hashProofOfStake nBlockTime
          txin txTmp _ postx header txPrev _ hvin hG hO hS hF hP⟩

/-- C11 (the code at the failing inputs): a candidate with an empty input
vector reaches `tx->vin[0]` out of range, and a candidate whose input 0 names
output 1 of a found previous transaction with a single output reaches
`txTmp->vout[1]` out of range; in both cases no verdict is returned. -/
theorem C11_out_of_range_access_reachable :
    exampleTxNoInput.vin.length = 0 ∧
    CheckProofOfStake exampleEnv { nDoS := 0, strRejectReason := "" } exampleTxNoInput
      486604799 0 346600 = none ∧
    exampleEnv.GetTransaction 7 = some exampleTxPrev ∧
    exampleTxPrev.vout.length = 1 ∧
    exampleTxOutOfRange.vin[0]? = some { prevout := { hash := 7, n := 1 }, scriptSig := [1] } ∧
    CheckProofOfStake exampleEnv { nDoS := 0, strRejectReason := "" } exampleTxOutOfRange
      486604799 0 346600 = none := by
  refine ⟨rfl, by decide, rfl, rfl, rfl, by decide⟩

/-! ## C12: weight monotonicity -/

/-- C13: two calls of `CheckStakeKernelHash` that both pass the min-age check
and agree on bits, containing block time, transaction offset, previous output
index and candidate time (under the same network hash) leave the same proof
hash, whatever the values of the previous outputs, the hashes of the previous
transactions, the consensus parameters and the prior contents of the
proof-hash output are. -/
theorem C13_proof_hash_depends_on_kernel_fields (E1 E2 : Env) (nBits nTxPrevOffset : Nat)
    (nTimeTx : Nat) (blockFrom1 blockFrom2 : CBlockHeader) (txOutPrev1 txOutPrev2 : CTxOut)
    (prevout1 prevout2 : COutPoint) (hashProofOfStake1 hashProofOfStake2 : uint256)
    (hHash : E1.Hash = E2.Hash) (hTime : blockFrom1.nTime = blockFrom2.nTime)
    (hn : prevout1.n = prevout2.n)
    (hpass1 : minAgeViolation E1 blockFrom1 nTimeTx = false)
    (hpass2 : minAgeViolation E2 blockFrom2 nTimeTx = false) :
    (CheckStakeKernelHash E1 nBits blockFrom1 nTxPrevOffset txOutPrev1 prevout1 nTimeTx
        hashProofOfStake1).2 =
      (CheckStakeKernelHash E2 nBits blockFrom2 nTxPrevOffset txOutPrev2 prevout2 nTimeTx
        hashProofOfStake2).2 := by
  rw [CheckStakeKernelHash_of_pass E1 nBits blockFrom1 nTxPrevOffset txOutPrev1 prevout1
      nTimeTx hashProofOfStake1 hpass1,
    CheckStakeKernelHash_of_pass E2 nBits blockFrom2 nTxPrevOffset txOutPrev2 prevout2
      nTimeTx hashProofOfStake2 hpass2]
  simp only [kernelStream, nTimeBlockFrom, CBlockHeader.GetBlockTime, hHash, hTime, hn]

/-- C13 witness: two calls under different maximum stake ages, on outputs of
different value from different transactions, with different prior contents of
the proof hash. -/
theorem C13_proof_hash_depends_on_kernel_fields_witness :
    exampleEnv.Hash = exampleEnvShortMaxAge.Hash ∧
    minAgeViolation exampleEnv { nTime := 1000 } 346600 = false ∧
    minAgeViolation exampleEnvShortMaxAge { nTime := 1000 } 346600 = false ∧
    (CheckStakeKernelHash exampleEnv 486604799 { nTime := 1000 } 81
        { nValue := 100000000, scriptPubKey := [] } { hash := 7, n := 0 } 346600 0).2 =
      (CheckStakeKernelHash exampleEnvShortMaxAge 486604799 { nTime := 1000 } 81
        { nValue := 5, scriptPubKey := [118] } { hash := 9, n := 0 } 346600 5).2 :=
  ⟨rfl, by decide, by decide,
    C13_proof_hash_depends_on_kernel_fields exampleEnv exampleEnvShortMaxAge 486604799 81
      346600 { nTime := 1000 } { nTime := 1000 } { nValue := 100000000, scriptPubKey := [] }
      { nValue := 5, scriptPubKey := [118] } { hash := 7, n := 0 } { hash := 9, n := 0 } 0 5
      rfl rfl rfl (by decide) (by decide)⟩

/-! ## C14: a missed target still reports the hash -/

/-- A proof hash above the exact product weight × target is above the 256-bit
product of line 62: the call returns false with the computed hash. -/
theorem CheckStakeKernelHash_of_target_not_met (E : Env) (nBits : Nat)
    (blockFrom : CBlockHeader) (nTxPrevOffset : Nat) (txOutPrev : CTxOut)
    (prevout : COutPoint) (nTimeTx : Nat) (hashProofOfStake : uint256)
    (hpass : minAgeViolation E blockFrom nTimeTx = false)
    (hgt : UintToArith256 (E.Hash (kernelStream nBits blockFrom nTxPrevOffset prevout nTimeTx)) >
      bnCoinDayWeight E txOutPrev blockFrom nTimeTx * bnTargetPerCoinDay nBits) :
    CheckStakeKernelHash E nBits blockFrom nTxPrevOffset txOutPrev prevout nTimeTx
        hashProofOfStake =
      (false, E.Hash (kernelStream nBits blockFrom nTxPrevOffset prevout nTimeTx)) := by
  rw [CheckStakeKernelHash_of_pass E nBits blockFrom nTxPrevOffset txOutPrev prevout nTimeTx
    hashProofOfStake hpass]
  have hmod : arith_uint256.mul (bnCoinDayWeight E txOutPrev blockFrom nTimeTx)
      (bnTargetPerCoinDay nBits) ≤
      bnCoinDayWeight E txOutPrev blockFrom nTimeTx * bnTargetPerCoinDay nBits :=
    Nat.mod_le _ _
  have hnot : ¬ UintToArith256 (E.Hash (kernelStream nBits blockFrom nTxPrevOffset prevout
      nTimeTx)) ≤ arith_uint256.mul (bnCoinDayWeight E txOutPrev blockFrom nTimeTx)
        (bnTargetPerCoinDay nBits) := by omega
  simp only [hnot, decide_False]

/-- C14: for every input that passes the min-age check and whose proof hash
exceeds weight × target, `CheckStakeKernelHash` returns false and the
proof-hash output is the computed kernel hash; and when `CheckProofOfStake`
reaches `CheckStakeKernelHash` on such an input it returns false with that
same hash in its proof-hash output. -/
theorem C14_target_not_met_reports_hash (E : Env) (state : CValidationState)
    (tx : CTransaction) (nBits : Nat) (hashProofOfStake : uint256) (nBlockTime : Nat)
    (txin : CTxIn) (txTmp : CTransaction) (txOutTmp : CTxOut) (postx : CDiskTxPos)
    (header : CBlockHeader) (txPrev : CTransaction) (txOutPrev : CTxOut)
    (hvin : tx.vin[0]? = some txin)
    (hG : E.GetTransaction txin.prevout.hash = some txTmp)
    (hO : txTmp.vout[txin.prevout.n]? = some txOutTmp)
    (hS : E.CScriptCheck txOutTmp tx 0 0 true = true)
    (hF : E.FindTx txin.prevout.hash = some (postx, header, txPrev))
    (hP : txPrev.vout[txin.prevout.n]? = some txOutPrev)
    (hpass : minAgeViolation E header nBlockTime = false)
    (hgt : UintToArith256 (E.Hash (kernelStream nBits header
        ((postx.nTxOffset + E.sizeofCBlockHeader) % 2 ^ 32) txin.prevout nBlockTime)) >
      bnCoinDayWeight E txOutPrev header nBlockTime * bnTargetPerCoinDay nBits) :
    (∀ (nBits2 : Nat) (blockFrom : CBlockHeader) (nTxPrevOffset : Nat) (txOut : CTxOut)
        (prevout : COutPoint) (nTimeTx : Nat) (hashPrior : uint256),
      minAgeViolation E blockFrom nTimeTx = false →
      UintToArith256 (E.Hash (kernelStream nBits2 blockFrom nTxPrevOffset prevout nTimeTx)) >
        bnCoinDayWeight E txOut blockFrom nTimeTx * bnTargetPerCoinDay nBits2 →
      CheckStakeKernelHash E nBits2 blockFrom nTxPrevOffset txOut prevout nTimeTx hashPrior =
        (false, E.Hash (kernelStream nBits2 blockFrom nTxPrevOffset prevout nTimeTx))) ∧
    CheckProofOfStake E state tx nBits hashProofOfStake nBlockTime =
      some (false,
        E.Hash (kernelStream nBits header ((postx.nTxOffset + E.sizeofCBlockHeader) % 2 ^ 32)
          txin.prevout nBlockTime), state) := by
  constructor
  · intro nBits2 blockFrom nTxPrevOffset txOut prevout nTimeTx hashPrior hp hg
    exact CheckStakeKernelHash_of_target_not_met E nBits2 blockFrom nTxPrevOffset txOut prevout
      nTimeTx hashPrior hp hg
  · rw [CheckProofOfStake_of_kernel E state tx nBits hashProofOfStake nBlockTime txin txTmp
      txOutTmp postx header txPrev txOutPrev hvin hG hO hS hF hP,
      CheckStakeKernelHash_of_target_not_met E nBits header _ txOutPrev txin.prevout nBlockTime
        hashProofOfStake hpass hgt]

/-- C14 witness: the worked candidate under the target 1 (`0x03000001`): the
weight is `2 ^ 24`, the proof hash is larger, the verdict is false and the
proof-hash output holds the hash of the 24 bytes. -/
theorem C14_target_not_met_reports_hash_witness :
    exampleTx.vin[0]? = some { prevout := { hash := 7, n := 0 }, scriptSig := [1] } ∧
    minAgeViolation exampleEnv { nTime := 1000 } 346600 = false ∧
    UintToArith256 (exampleEnv.Hash (kernelStream 50331649 { nTime := 1000 }
        ((1 + exampleEnv.sizeofCBlockHeader) % 2 ^ 32) { hash := 7, n := 0 } 346600)) >
      bnCoinDayWeight exampleEnv { nValue := 16777216 * 100000000, scriptPubKey := [118] }
        { nTime := 1000 } 346600 * bnTargetPerCoinDay 50331649 ∧
    CheckProofOfStake exampleEnv { nDoS := 0, strRejectReason := "" } exampleTx 50331649 5
        346600 =
      some (false,
        exampleEnv.Hash [1, 0, 0, 3, 232, 3, 0, 0, 81, 0, 0, 0, 232, 3, 0, 0, 0, 0, 0, 0,
          232, 73, 5, 0],
        { nDoS := 0, strRejectReason := "" }) :=
  ⟨rfl, by decide, by decide,
    (C14_target_not_met_reports_hash exampleEnv { nDoS := 0, strRejectReason := "" } exampleTx
      50331649 5 346600 { prevout := { hash := 7, n := 0 }, scriptSig := [1] } exampleTxPrev
      { nValue := 16777216 * 100000000, scriptPubKey := [118] } { nTxOffset := 1 }
      { nTime := 1000 } exampleTxPrev
      { nValue := 16777216 * 100000000, scriptPubKey := [118] } rfl rfl rfl rfl rfl rfl
      (by decide) (by decide)).2⟩

/-! ## C15: the boundary of the comparison -/

/-- C16: for every input that fails the min-age check, `CheckStakeKernelHash`
returns false and leaves the proof hash as it was before the call, for every
bits, offset and previous output; the same holds under every hash function
and every other parameter (any environment with the same `nStakeMinAge`), so
no weight, target or hash enters the result. -/
theorem C16_age_check_first (E : Env) (nBits : Nat) (blockFrom : CBlockHeader)
    (nTxPrevOffset : Nat) (txOutPrev : CTxOut) (prevout : COutPoint) (nTimeTx : Nat)
    (hashProofOfStake : uint256) (hviol : minAgeViolation E blockFrom nTimeTx = true)
    (E2 : Env) (hsame : E2.nStakeMinAge = E.nStakeMinAge) (nBits2 nTxPrevOffset2 : Nat)
    (txOutPrev2 : CTxOut) (prevout2 : COutPoint) :
    CheckStakeKernelHash E nBits blockFrom nTxPrevOffset txOutPrev prevout nTimeTx
        hashProofOfStake = (false, hashProofOfStake) ∧
    CheckStakeKernelHash E2 nBits2 blockFrom nTxPrevOffset2 txOutPrev2 prevout2 nTimeTx
        hashProofOfStake = (false, hashProofOfStake) := by
  have hviol2 : minAgeViolation E2 blockFrom nTimeTx = true := by
    unfold minAgeViolation at hviol ⊢
    rw [hsame]
    exact hviol
  exact ⟨CheckStakeKernelHash_of_violation E nBits blockFrom nTxPrevOffset txOutPrev prevout
      nTimeTx hashProofOfStake hviol,
    CheckStakeKernelHash_of_violation E2 nBits2 blockFrom nTxPrevOffset2 txOutPrev2 prevout2
      nTimeTx hashProofOfStake hviol2⟩

/-- C16 witness: block time 1000 and candidate time 260199, one second short
of the minimum age 259200. -/
theorem C16_age_check_first_witness :
    minAgeViolation exampleEnv { nTime := 1000 } 260199 = true ∧
    exampleEnvBoundary.nStakeMinAge = exampleEnv.nStakeMinAge ∧
    CheckStakeKernelHash exampleEnv 486604799 { nTime := 1000 } 81
        { nValue := 100000000, scriptPubKey := [] } { hash := 7, n := 0 } 260199 5 =
      (false, 5) :=
  ⟨by decide, rfl,
    (C16_age_check_first exampleEnv 486604799 { nTime := 1000 } 81
      { nValue := 100000000, scriptPubKey := [] } { hash := 7, n := 0 } 260199 5 (by decide)
      exampleEnvBoundary rfl 0 0 { nValue := 0, scriptPubKey := [] } { hash := 0, n := 0 }).1⟩

/-! ## C17: the serialization is injective -/

/-- Two 32-bit values with the same four little-endian bytes are equal. -/
theorem ser_uint32_injective (x y : Nat) (hx : x < 2 ^ 32) (hy : y < 2 ^ 32)
    (h : ser_uint32 x = ser_uint32 y) : x = y := by
  simp only [ser_uint32, List.cons.injEq, and_true] at h
  omega

/-- C17: on 32-bit values of bits, containing block time, transaction offset,
previous output index and candidate time, the stream of line 57 has 24 bytes
and determines the five fields: two tuples have the same stream if and only if
they agree in every field, so tuples that differ in any one field have
different preimages. -/
theorem C17_preimage_injective (nBits1 nBits2 : Nat) (blockFrom1 blockFrom2 : CBlockHeader)
    (nTxPrevOffset1 nTxPrevOffset2 : Nat) (prevout1 prevout2 : COutPoint)
    (nTimeTx1 nTimeTx2 : Nat)
    (hbits1 : nBits1 < 2 ^ 32) (hbits2 : nBits2 < 2 ^ 32)
    (hb1 : blockFrom1.nTime < 2 ^ 32) (hb2 : blockFrom2.nTime < 2 ^ 32)
    (hoff1 : nTxPrevOffset1 < 2 ^ 32) (hoff2 : nTxPrevOffset2 < 2 ^ 32)
    (hn1 : prevout1.n < 2 ^ 32) (hn2 : prevout2.n < 2 ^ 32)
    (ht1 : nTimeTx1 < 2 ^ 32) (ht2 : nTimeTx2 < 2 ^ 32) :
    (kernelStream nBits1 blockFrom1 nTxPrevOffset1 prevout1 nTimeTx1).length = 24 ∧
    (kernelStream nBits1 blockFrom1 nTxPrevOffset1 prevout1 nTimeTx1 =
        kernelStream nBits2 blockFrom2 nTxPrevOffset2 prevout2 nTimeTx2 ↔
      nBits1 = nBits2 ∧ blockFrom1.nTime = blockFrom2.nTime ∧
        nTxPrevOffset1 = nTxPrevOffset2 ∧ prevout1.n = prevout2.n ∧ nTimeTx1 = nTimeTx2) := by
  refine ⟨rfl, ?_, ?_⟩
  · intro h
    unfold kernelStream at h
    rw [nTimeBlockFrom_eq hb1, nTimeBlockFrom_eq hb2] at h
    simp only [ser_uint32, List.cons_append, List.nil_append, List.cons.injEq, and_true] at h
    refine ⟨?_, ?_, ?_, ?_, ?_⟩ <;> omega
  · rintro ⟨h1, h2, h3, h4, h5⟩
    unfold kernelStream
    rw [nTimeBlockFrom_eq hb1, nTimeBlockFrom_eq hb2, h1, h2, h3, h4, h5]

/-- C17 witness: two tuples that differ in the candidate time only have
different streams. -/
theorem C17_preimage_injective_witness :
    (486604799 : Nat) < 2 ^ 32 ∧ (1000 : Nat) < 2 ^ 32 ∧ (81 : Nat) < 2 ^ 32 ∧
    (0 : Nat) < 2 ^ 32 ∧ (346600 : Nat) < 2 ^ 32 ∧ (346601 : Nat) < 2 ^ 32 ∧
    kernelStream 486604799 { nTime := 1000 } 81 { hash := 7, n := 0 } 346600 ≠
      kernelStream 486604799 { nTime := 1000 } 81 { hash := 7, n := 0 } 346601 :=
  ⟨by decide, by decide, by decide, by decide, by decide, by decide,
    fun h => absurd
      ((C17_preimage_injective 486604799 486604799 { nTime := 1000 } { nTime := 1000 } 81 81
        { hash := 7, n := 0 } { hash := 7, n := 0 } 346600 346601 (by decide) (by decide)
        (by decide) (by decide) (by decide) (by decide) (by decide) (by decide) (by decide)
        (by decide)).2.mp h).2.2.2.2 (by decide)⟩

/-! ## C18: zero weight -/

/-- C18 (as amended): with consensus parameters
`0 ≤ nStakeMinAge ≤ nStakeMaxAge` and a non-negative 64-bit output value, for
every input that passes the min-age check and has
`nValue × weightedSeconds < COIN × 86400` (in particular every zero-value
output and every stake whose age is exactly `nStakeMinAge`), the weight is 0
and `CheckStakeKernelHash` accepts if and only if the proof hash is the
all-zero 256-bit value, under every bits. -/
theorem C18_zero_weight_cannot_mint (E : Env) (nBits : Nat) (blockFrom : CBlockHeader)
    (nTxPrevOffset : Nat) (txOutPrev : CTxOut) (prevout : COutPoint) (nTimeTx : Nat)
    (hashProofOfStake : uint256) (hb : blockFrom.nTime < 2 ^ 32) (ht : nTimeTx < 2 ^ 32)
    (hv0 : 0 ≤ txOutPrev.nValue) (hv1 : txOutPrev.nValue ≤ 9223372036854775807)
    (h0 : 0 ≤ E.nStakeMinAge) (h1 : E.nStakeMinAge ≤ E.nStakeMaxAge)
    (hsum : (blockFrom.nTime : Int) + E.nStakeMinAge ≤ 9223372036854775807)
    (hpass : minAgeViolation E blockFrom nTimeTx = false)
    (hsmall : txOutPrev.nValue *
        (min ((nTimeTx : Int) - (blockFrom.nTime : Int)) E.nStakeMaxAge - E.nStakeMinAge) <
      (E.COIN : Int) * 86400) :
    bnCoinDayWeight E txOutPrev blockFrom nTimeTx = 0 ∧
    ((CheckStakeKernelHash E nBits blockFrom nTxPrevOffset txOutPrev prevout nTimeTx
        hashProofOfStake).1 = true ↔
      (CheckStakeKernelHash E nBits blockFrom nTxPrevOffset txOutPrev prevout nTimeTx
        hashProofOfStake).2 = 0) := by
  obtain ⟨hw, hw0, -⟩ := nTimeWeight_window E blockFrom nTimeTx hb ht h0 h1 hsum hpass
  have ht' : (nTimeTx : Int) < 4294967296 := by exact_mod_cast ht
  have hw1 : nTimeWeight E blockFrom nTimeTx < 4294967296 := by
    rw [hw]; omega
  have key := bnCoinDayWeight_eq E txOutPrev blockFrom nTimeTx hv0 hv1 hw0 hw1
  rw [hw] at key hw0
  have hnat : txOutPrev.nValue.toNat *
      (min ((nTimeTx : Int) - (blockFrom.nTime : Int)) E.nStakeMaxAge
        - E.nStakeMinAge).toNat < E.COIN * 86400 := by
    have hcast : ((txOutPrev.nValue.toNat *
        (min ((nTimeTx : Int) - (blockFrom.nTime : Int)) E.nStakeMaxAge
          - E.nStakeMinAge).toNat : Nat) : Int) < ((E.COIN * 86400 : Nat) : Int) := by
      push_cast
      rw [Int.toNat_of_nonneg hv0, Int.toNat_of_nonneg hw0]
      exact hsmall
    exact_mod_cast hcast
  have hzero : bnCoinDayWeight E txOutPrev blockFrom nTimeTx = 0 := by
    rw [key, Nat.div_div_eq_div_mul]
    exact Nat.div_eq_of_lt hnat
  refine ⟨hzero, ?_⟩
  rw [CheckStakeKernelHash_of_pass E nBits blockFrom nTxPrevOffset txOutPrev prevout nTimeTx
    hashProofOfStake hpass, hzero]
  simp only [arith_uint256.mul, Nat.zero_mul, Nat.zero_mod, Nat.le_zero_eq, decide_eq_true_eq,
    UintToArith256]
  constructor
  · intro h
    exact Fin.ext (by rw [h]; rfl)
  · intro h
    rw [h]
    rfl

/-- C18 witness: `2 ^ 24` coins whose age is exactly the minimum age: the
weight is 0 and the stake is rejected, its hash not being zero. -/
theorem C18_zero_weight_cannot_mint_witness :
    (1000 : Nat) < 2 ^ 32 ∧ (260200 : Nat) < 2 ^ 32 ∧
    (0 : Int) ≤ 16777216 * 100000000 ∧ (16777216 * 100000000 : Int) ≤ 9223372036854775807 ∧
    (0 : Int) ≤ exampleEnv.nStakeMinAge ∧ exampleEnv.nStakeMinAge ≤ exampleEnv.nStakeMaxAge ∧
    ((1000 : Nat) : Int) + exampleEnv.nStakeMinAge ≤ 9223372036854775807 ∧
    minAgeViolation exampleEnv { nTime := 1000 } 260200 = false ∧
    (16777216 * 100000000 : Int) *
        (min (((260200 : Nat) : Int) - ((1000 : Nat) : Int)) exampleEnv.nStakeMaxAge
          - exampleEnv.nStakeMinAge) < (exampleEnv.COIN : Int) * 86400 ∧
    bnCoinDayWeight exampleEnv { nValue := 16777216 * 100000000, scriptPubKey := [] }
      { nTime := 1000 } 260200 = 0 :=
  ⟨by decide, by decide, by decide, by decide, by decide, by decide, by decide, by decide,
    by decide,
    (C18_zero_weight_cannot_mint exampleEnv 486604799 { nTime := 1000 } 81
      { nValue := 16777216 * 100000000, scriptPubKey := [] } { hash := 7, n := 0 } 260200 0
      (by decide) (by decide) (by decide) (by decide) (by decide) (by decide) (by decide)
      (by decide) (by decide)).1⟩

/-- C18 counterexample: a network with minimum stake age 259200 and maximum
stake age 86400, and a two-coin output whose age is exactly the minimum stake
age. The weighted seconds of line 52 are −172800, so
`nValue × weightedSeconds < COIN × 86400` (as it is with the weighted seconds
floored at 0), yet the weight is 99416 and the stake is accepted under the
target `0x207fffff` with a proof hash that is not zero. -/
theorem C18_counterexample_short_max_age :
    minAgeViolation exampleEnvShortMaxAge { nTime := 1000 } 260200 = false ∧
    ((260200 : Nat) : Int) - ((1000 : Nat) : Int) = exampleEnvShortMaxAge.nStakeMinAge ∧
    (200000000 : Int) * nTimeWeight exampleEnvShortMaxAge { nTime := 1000 } 260200 <
      (exampleEnvShortMaxAge.COIN : Int) * 86400 ∧
    (200000000 : Int) * max 0 (nTimeWeight exampleEnvShortMaxAge { nTime := 1000 } 260200) <
      (exampleEnvShortMaxAge.COIN : Int) * 86400 ∧
    bnCoinDayWeight exampleEnvShortMaxAge { nValue := 200000000, scriptPubKey := [] }
      { nTime := 1000 } 260200 = 99416 ∧
    (CheckStakeKernelHash exampleEnvShortMaxAge 545259519 { nTime := 1000 } 81
        { nValue := 200000000, scriptPubKey := [] } { hash := 7, n := 0 } 260200 0).1 = true ∧
    (CheckStakeKernelHash exampleEnvShortMaxAge 545259519 { nTime := 1000 } 81
        { nValue := 200000000, scriptPubKey := [] } { hash := 7, n := 0 } 260200 0).2 ≠ 0 := by
  refine ⟨by decide, by decide, by decide, by decide, by decide, by decide, by decide⟩

/-! ## C19: the threshold is a 256-bit product -/

/-- C19: the product of line 62 is taken in 256-bit arithmetic: for every
input that passes the min-age check, `CheckStakeKernelHash` accepts if and
only if the proof hash is at most `(weight × target) mod 2 ^ 256`; when
`weight × target < 2 ^ 256` this is the exact comparison with
`weight × target`. -/
theorem C19_threshold_mod_two_pow_256 (E : Env) (nBits : Nat) (blockFrom : CBlockHeader)
    (nTxPrevOffset : Nat) (txOutPrev : CTxOut) (prevout : COutPoint) (nTimeTx : Nat)
    (hashProofOfStake : uint256) (hpass : minAgeViolation E blockFrom nTimeTx = false) :
    ((CheckStakeKernelHash E nBits blockFrom nTxPrevOffset txOutPrev prevout nTimeTx
        hashProofOfStake).1 = true ↔
      UintToArith256 (CheckStakeKernelHash E nBits blockFrom nTxPrevOffset txOutPrev prevout
        nTimeTx hashProofOfStake).2 ≤
        (bnCoinDayWeight E txOutPrev blockFrom nTimeTx * bnTargetPerCoinDay nBits) % 2 ^ 256) ∧
    (bnCoinDayWeight E txOutPrev blockFrom nTimeTx * bnTargetPerCoinDay nBits < 2 ^ 256 →
      ((CheckStakeKernelHash E nBits blockFrom nTxPrevOffset txOutPrev prevout nTimeTx
          hashProofOfStake).1 = true ↔
        UintToArith256 (CheckStakeKernelHash E nBits blockFrom nTxPrevOffset txOutPrev prevout
          nTimeTx hashProofOfStake).2 ≤
          bnCoinDayWeight E txOutPrev blockFrom nTimeTx * bnTargetPerCoinDay nBits)) := by
  rw [CheckStakeKernelHash_of_pass E nBits blockFrom nTxPrevOffset txOutPrev prevout nTimeTx
    hashProofOfStake hpass]
  unfold arith_uint256.mul
  constructor
  · simp only [decide_eq_true_eq]
  · intro hfit
    rw [Nat.mod_eq_of_lt hfit]
    simp only [decide_eq_true_eq]

/-- C19 witness: `2 ^ 24` coins aged one day past the minimum under the target
`0x207fffff`: the 256-bit product is 0 and the stake is rejected. -/
theorem C19_threshold_mod_two_pow_256_witness :
    minAgeViolation exampleEnv { nTime := 1000 } 346600 = false ∧
    (bnCoinDayWeight exampleEnv { nValue := 16777216 * 100000000, scriptPubKey := [] }
      { nTime := 1000 } 346600 * bnTargetPerCoinDay 545259519) % 2 ^ 256 = 0 ∧
    (CheckStakeKernelHash exampleEnv 545259519 { nTime := 1000 } 81
        { nValue := 16777216 * 100000000, scriptPubKey := [] } { hash := 7, n := 0 }
        346600 0).1 ≠ true :=
  ⟨by decide, by decide,
    fun h => absurd
      ((C19_threshold_mod_two_pow_256 exampleEnv 545259519 { nTime := 1000 } 81
        { nValue := 16777216 * 100000000, scriptPubKey := [] } { hash := 7, n := 0 } 346600 0
        (by decide)).1.mp h) (by decide)⟩

/-! ## C20: the weighted seconds are not floored -/

/-- C20 (as amended): line 52 applies no floor. For consensus parameters with
`0 ≤ nStakeMinAge ≤ nStakeMaxAge` and every input that passes the min-age
check, the weighted seconds entering the weight are
`min(nTimeTx − nTime, nStakeMaxAge) − nStakeMinAge`, which is then
non-negative and so equal to `max(0, min(nTimeTx − nTime, nStakeMaxAge) −
nStakeMinAge)`. -/
theorem C20_weighted_seconds_nonneg_of_ordered_ages (E : Env) (txOutPrev : CTxOut)
    (blockFrom : CBlockHeader) (nTimeTx : Nat)
    (hb : blockFrom.nTime < 2 ^ 32) (ht : nTimeTx < 2 ^ 32)
    (h0 : 0 ≤ E.nStakeMinAge) (h1 : E.nStakeMinAge ≤ E.nStakeMaxAge)
    (hsum : (blockFrom.nTime : Int) + E.nStakeMinAge ≤ 9223372036854775807)
    (hpass : minAgeViolation E blockFrom nTimeTx = false) :
    nTimeWeight E blockFrom nTimeTx =
      max 0 (min ((nTimeTx : Int) - (blockFrom.nTime : Int)) E.nStakeMaxAge
        - E.nStakeMinAge) ∧
    0 ≤ nTimeWeight E blockFrom nTimeTx ∧
    bnCoinDayWeight E txOutPrev blockFrom nTimeTx =
      coinDayWeight E txOutPrev.nValue
        (max 0 (min ((nTimeTx : Int) - (blockFrom.nTime : Int)) E.nStakeMaxAge
          - E.nStakeMinAge)) := by
  obtain ⟨hw, hw0, -⟩ := nTimeWeight_window E blockFrom nTimeTx hb ht h0 h1 hsum hpass
  have hmax : nTimeWeight E blockFrom nTimeTx =
      max 0 (min ((nTimeTx : Int) - (blockFrom.nTime : Int)) E.nStakeMaxAge
        - E.nStakeMinAge) := by
    rw [hw] at hw0 ⊢
    omega
  refine ⟨hmax, hw0, ?_⟩
  rw [← hmax]
  rfl

/-- C20 witness: block time 1000, candidate time 346600, ages 259200 and
2592000: the weighted seconds are 86400. -/
theorem C20_weighted_seconds_nonneg_of_ordered_ages_witness :
    (1000 : Nat) < 2 ^ 32 ∧ (346600 : Nat) < 2 ^ 32 ∧
    (0 : Int) ≤ exampleEnv.nStakeMinAge ∧ exampleEnv.nStakeMinAge ≤ exampleEnv.nStakeMaxAge ∧
    ((1000 : Nat) : Int) + exampleEnv.nStakeMinAge ≤ 9223372036854775807 ∧
    minAgeViolation exampleEnv { nTime := 1000 } 346600 = false ∧
    nTimeWeight exampleEnv { nTime := 1000 } 346600 =
      max 0 (min (((346600 : Nat) : Int) - ((1000 : Nat) : Int)) exampleEnv.nStakeMaxAge
        - exampleEnv.nStakeMinAge) :=
  ⟨by decide, by decide, by decide, by decide, by decide, by decide,
    (C20_weighted_seconds_nonneg_of_ordered_ages exampleEnv
      { nValue := 100000000, scriptPubKey := [] } { nTime := 1000 } 346600 (by decide)
      (by decide) (by decide) (by decide) (by decide) (by decide)).1⟩

/-- C20 counterexample: a network with minimum stake age 259200 and maximum
stake age 86400, block time 1000, candidate time 301000 (the min-age check
passes). The floored value `max(0, min(300000, 86400) − 259200)` is 0, but
line 52 gives −172800, and the weight of a one-coin output is 49708, not 0. -/
theorem C20_counterexample_negative_weighted_seconds :
    exampleEnvShortMaxAge.nStakeMaxAge < exampleEnvShortMaxAge.nStakeMinAge ∧
    minAgeViolation exampleEnvShortMaxAge { nTime := 1000 } 301000 = false ∧
    max 0 (min (((301000 : Nat) : Int) - ((1000 : Nat) : Int))
      exampleEnvShortMaxAge.nStakeMaxAge - exampleEnvShortMaxAge.nStakeMinAge) = 0 ∧
    nTimeWeight exampleEnvShortMaxAge { nTime := 1000 } 301000 = -172800 ∧
    bnCoinDayWeight exampleEnvShortMaxAge { nValue := 100000000, scriptPubKey := [] }
      { nTime := 1000 } 301000 = 49708 := by
  refine ⟨by decide, by decide, by decide, by decide, by decide⟩

end Kernel
